import Mathlib

/-!
Verification development for the intersection-polygon construction of
`map_model/src/make/intersections.rs`.

The file embeds the two functions of that source file,
`initial_intersection_polygon` and `make_new_polygon`, as Lean functions.
Machine floating-point scalars (`f64` meters and degrees) are modelled by
exact rationals.  The geometry primitive library (`geom`: points, polylines,
angles, lines) is an external collaborator that is not part of the sources
under verification; it is modelled from the spec as an abstract structure of
operations (`GeomOps`) together with the properties the spec ascribes to
those operations (`GeomLaws`).  The road/intersection data model carries
exactly the fields the source reads or writes.
-/

namespace ABStreet

/-- Truncation of a rational toward zero, modelling the Rust `as i64` cast
applied to a (finite) `f64`. -/
def truncQ (q : ℚ) : ℤ :=
  q.num.tdiv (q.den : ℤ)

/-- Road record (`map_model::Road`), restricted to the fields that
`initial_intersection_polygon` reads or writes: the source and destination
intersection ids, the centerline, and the forward/backward lane children
(of which only the count is ever used, so they are modelled as counts). -/
structure Road (PL : Type) where
  src_i : ℕ
  dst_i : ℕ
  center_pts : PL
  children_forwards : ℕ
  children_backwards : ℕ
deriving DecidableEq

/-- Intersection record (`map_model::Intersection`), restricted to the fields
read by `initial_intersection_polygon`: its id and the ordered list of
incident road ids. -/
structure Intersection where
  id : ℕ
  roads : List ℕ
deriving DecidableEq

/-- Diagnostics emitted on the logging side channel (`error!`, `note`,
`warn!`), identified by the same data the source interpolates into the
messages. -/
inductive Diag where
  | deadEndTooShort (i id : ℕ)
  | degenerateTooShort (i id1 id2 : ℕ)
  | couldntMakeNew (i nroads : ℕ)
  | noHit (id1 id2 i nroads : ℕ)
deriving DecidableEq

/-- The constant `DEGENERATE_INTERSECTION_HALF_LENGTH` of the source:
5.0 meters. -/
def DEGENERATE_INTERSECTION_HALF_LENGTH : ℚ := 5

/-- Modelled from the spec: the fixed lane-thickness constant imported by the
source from the surrounding crate (`LANE_THICKNESS`); its numeric value is
not part of the sources under verification, and no claim depends on it. -/
def LANE_THICKNESS : ℚ := 5 / 2

/-- Modelled from the spec, section 4.5: circular indexing over a list,
`((index % n) + n) % n` (`abstutil::wraparound_get`).  Total, returning
`none` only when the list is empty. -/
def wraparound_get {α : Type} (l : List α) (idx : ℤ) : Option α :=
  l.get? ((idx % (l.length : ℤ) + (l.length : ℤ)) % (l.length : ℤ)).toNat

/-- Helper for `dedupBy`: `x` is the last retained element, and each later
element equal to it is dropped. -/
def dedupFrom {α : Type} (eq : α → α → Bool) (x : α) : List α → List α
  | [] => [x]
  | y :: ys => if eq x y then dedupFrom eq x ys else x :: dedupFrom eq y ys

/-- `Vec::dedup`: remove consecutive duplicate elements, keeping the first of
each run, with equality decided by `eq`. -/
def dedupBy {α : Type} (eq : α → α → Bool) : List α → List α
  | [] => []
  | x :: xs => dedupFrom eq x xs

/-- Stable insertion of `x` into a key-sorted list: `x` is placed before the
first element whose key is not smaller, so an element inserted later never
jumps ahead of an equal-keyed element inserted earlier. -/
def insertByKey {α : Type} (key : α → ℤ) (x : α) : List α → List α
  | [] => [x]
  | y :: ys => if key x ≤ key y then x :: y :: ys else y :: insertByKey key x ys

/-- Stable sort by an integer key, modelling Rust `sort_by_key` (a stable
sort; any stable sort agreeing on the key produces the same list). -/
def sort_by_key {α : Type} (key : α → ℤ) : List α → List α
  | [] => []
  | x :: xs => insertByKey key x (sort_by_key key xs)

/-- Map a fallible function over a list, stopping at the first error: the
`Vec`-collecting iterator of the source, where a panic aborts the whole
computation. -/
def mapExcept {α β ε : Type} (f : α → Except ε β) : List α → Except ε (List β)
  | [] => .ok []
  | x :: xs =>
    match f x with
    | .error e => .error e
    | .ok y =>
      match mapExcept f xs with
      | .error e => .error e
      | .ok ys => .ok (y :: ys)

/-- Modelled from the spec, section 6: the geometry primitive capability
surface consumed by the source (the `geom` crate, an external collaborator
not under verification).  `Pt` is the point type (`Pt2D`), `PL` the polyline
type (`PolyLine`), `Ang` the angle type (`Angle`), `Ln` the line-segment type
(`Line`).  Fallible operations return `Option` exactly where the source's
API does (`shift`, `safe_dist_along`, both intersection tests). -/
structure GeomOps (Pt PL Ang Ln : Type) where
  ptEq : Pt → Pt → Bool
  reversed : PL → PL
  shift : PL → ℚ → Option PL
  lastLine : PL → Ln
  lineAngle : Ln → Ang
  lastPt : PL → Pt
  plLength : PL → ℚ
  safeDistAlong : PL → ℚ → Option (Pt × Ang)
  distAlong : PL → ℚ → Pt × Ang
  slice : PL → ℚ → ℚ → PL × ℚ
  trimToPt : PL → Pt → PL
  plIntersection : PL → PL → Option (Pt × Ang)
  intersectionInfiniteLine : PL → Ln → Option Pt
  normalizedDegrees : Ang → ℚ
  opposite : Ang → Ang
  rotateDegs : Ang → ℚ → Ang
  lineNew : Pt → Pt → Ln
  projectAway : Pt → ℚ → Ang → Pt

/-- Modelled from the spec: the properties sections 3, 6 and 8 ascribe to the
geometry primitives — lengths are nonnegative; reversal preserves length;
slicing by length yields the sub-polyline between the two (clamped)
distances, so its length is the clamped difference; trimming to a point only
ever shortens a polyline. -/
structure GeomLaws {Pt PL Ang Ln : Type} (G : GeomOps Pt PL Ang Ln) : Prop where
  len_nonneg : ∀ pl, 0 ≤ G.plLength pl
  rev_len : ∀ pl, G.plLength (G.reversed pl) = G.plLength pl
  slice_len : ∀ pl a b, G.plLength (G.slice pl a b).1 =
    max 0 (min b (G.plLength pl) - max 0 (min a (G.plLength pl)))
  trim_le : ∀ pl p, G.plLength (G.trimToPt pl p) ≤ G.plLength pl

variable {Pt PL Ang Ln : Type}

/-- Lines 20–40 of the source: turn one incident road into
`(id, last-segment angle, normal border, reverse border)`.  The `panic!` for
a road with no endpoint at the intersection and the two `unwrap`s on `shift`
become `Except.error`. -/
def buildLine (G : GeomOps Pt PL Ang Ln) (i : Intersection) (roads : List (Road PL))
    (id : ℕ) : Except String (ℕ × Ang × PL × PL) :=
  match roads.get? id with
  | none => .error "road index out of bounds"
  | some r =>
    let fwd_width := LANE_THICKNESS * (r.children_forwards : ℚ)
    let back_width := LANE_THICKNESS * (r.children_backwards : ℚ)
    let oriented : Except String (PL × ℚ × ℚ) :=
      if r.src_i = i.id then .ok (G.reversed r.center_pts, back_width, fwd_width)
      else if r.dst_i = i.id then .ok (r.center_pts, fwd_width, back_width)
      else .error "Incident road does not have an endpoint at the intersection"
    match oriented with
    | .error e => .error e
    | .ok lw =>
      match G.shift lw.1 lw.2.1 with
      | none => .error "unwrap failed: shift of the normal border"
      | some pl_normal =>
        match G.shift (G.reversed lw.1) lw.2.2 with
        | none => .error "unwrap failed: shift of the reverse border"
        | some pl_rev0 =>
          .ok (id, G.lineAngle (G.lastLine lw.1), pl_normal, G.reversed pl_rev0)

/-- The sort key of line 46 of the source:
`angle.normalized_degrees() as i64`. -/
def entryKey (G : GeomOps Pt PL Ang Ln) (e : ℕ × Ang × PL × PL) : ℤ :=
  truncQ (G.normalizedDegrees e.2.1)

/-- Lines 69–86 of the source: trim a dead-end road's centerline back by
twice the half-length constant on the intersection side. -/
def trimDeadEnd (G : GeomOps Pt PL Ang Ln) (iid : ℕ) (roads : List (Road PL))
    (id : ℕ) : List (Road PL) :=
  match roads.get? id with
  | none => roads
  | some r =>
    if r.src_i = iid then
      roads.set id { r with center_pts :=
        (G.slice r.center_pts (DEGENERATE_INTERSECTION_HALF_LENGTH * 2)
          (G.plLength r.center_pts)).1 }
    else
      roads.set id { r with center_pts :=
        (G.slice r.center_pts 0
          (G.plLength r.center_pts - DEGENERATE_INTERSECTION_HALF_LENGTH * 2)).1 }

/-- Lines 121–137 of the source: trim one of a degree-2 intersection's roads
back by the half-length constant on the intersection side. -/
def trimDegenerate (G : GeomOps Pt PL Ang Ln) (iid : ℕ) (roads : List (Road PL))
    (id : ℕ) : List (Road PL) :=
  match roads.get? id with
  | none => roads
  | some r =>
    if r.src_i = iid then
      roads.set id { r with center_pts :=
        (G.slice r.center_pts DEGENERATE_INTERSECTION_HALF_LENGTH
          (G.plLength r.center_pts)).1 }
    else
      roads.set id { r with center_pts :=
        (G.slice r.center_pts 0
          (G.plLength r.center_pts - DEGENERATE_INTERSECTION_HALF_LENGTH)).1 }

/-- Lines 223–342 of the source, one iteration of the corner loop of
`make_new_polygon` for the road at circular index `idx`: compute the forward
and backward corner candidates, give up (`.ok none`) when neither exists,
otherwise trim the road to the shorter candidate, re-shift its borders and
return the points contributed by this road together with the updated road
collection.  The `unwrap`s on the perpendicular/centerline intersection and
on the re-shifts become `Except.error`. -/
def processRoad (G : GeomOps Pt PL Ang Ln) (iid : ℕ)
    (lines : List (ℕ × Ang × PL × PL)) (roads : List (Road PL)) (idx : ℤ) :
    Except String (Option (List Pt × List (Road PL))) :=
  match wraparound_get lines idx, wraparound_get lines (idx + 1),
      wraparound_get lines (idx - 1) with
  | some e, some adj1, some adj2 =>
    let id := e.1
    let fwd_pl := e.2.2.1
    let back_pl := e.2.2.2
    let adj_back_pl := adj1.2.2.1
    let adj_fwd_pl := adj2.2.2.2
    match roads.get? id with
    | none => .error "road index out of bounds"
    | some r0 =>
      let road_center :=
        if r0.dst_i = iid then r0.center_pts else G.reversed r0.center_pts
      let fwdStep : Except String (Option Pt × Option PL) :=
        match G.plIntersection fwd_pl adj_fwd_pl with
        | some hitang =>
          let perp := G.lineNew hitang.1
            (G.projectAway hitang.1 1 (G.rotateDegs hitang.2 90))
          match G.intersectionInfiniteLine road_center perp with
          | none => .error "unwrap failed: perpendicular does not hit the road center"
          | some trim_to => .ok (some hitang.1, some (G.trimToPt road_center trim_to))
        | none => .ok (none, none)
      match fwdStep with
      | .error e1 => .error e1
      | .ok fwdRes =>
        let backStep : Except String (Option Pt × Option PL) :=
          match G.plIntersection back_pl adj_back_pl with
          | some hitang =>
            let perp := G.lineNew hitang.1
              (G.projectAway hitang.1 1 (G.rotateDegs hitang.2 90))
            match G.intersectionInfiniteLine road_center perp with
            | none => .error "unwrap failed: perpendicular does not hit the road center"
            | some trim_to => .ok (some hitang.1, some (G.trimToPt road_center trim_to))
          | none => .ok (none, none)
        match backStep with
        | .error e2 => .error e2
        | .ok backRes =>
          match fwdRes.2, backRes.2 with
          | none, none => .ok none
          | oc1, oc2 =>
            let shorter_center :=
              match oc1, oc2 with
              | some c1, some c2 =>
                if G.plLength c1 ≤ G.plLength c2 then c1 else c2
              | some c1, none => c1
              | none, some c2 => c2
              | none, none => road_center
            let fwd_width := LANE_THICKNESS * (r0.children_forwards : ℚ)
            let back_width := LANE_THICKNESS * (r0.children_backwards : ℚ)
            let ncw : PL × ℚ × ℚ :=
              if r0.src_i = iid then (G.reversed shorter_center, back_width, fwd_width)
              else (shorter_center, fwd_width, back_width)
            let roads1 := roads.set id { r0 with center_pts := ncw.1 }
            match G.shift shorter_center ncw.2.1 with
            | none => .error "unwrap failed: shift of the trimmed center (normal)"
            | some pl_normal =>
              match G.shift (G.reversed shorter_center) ncw.2.2 with
              | none => .error "unwrap failed: shift of the trimmed center (reverse)"
              | some pl_rev0 =>
                let pl_reverse := G.reversed pl_rev0
                let pts :=
                  (match fwdRes.1 with | some h => [h] | none => [])
                    ++ [G.lastPt pl_normal, G.lastPt pl_reverse]
                    ++ (match backRes.1 with | some h => [h] | none => [])
                .ok (some (pts, roads1))
  | _, _, _ => .error "wraparound_get out of range"

/-- The loop of `make_new_polygon` over circular indices, threading the
accumulated endpoints and the (partially mutated) road collection.  An early
give-up keeps the mutations made so far, as the in-place `&mut` mutation of
the source does. -/
def mnpAux (G : GeomOps Pt PL Ang Ln) (iid : ℕ)
    (lines : List (ℕ × Ang × PL × PL)) :
    List ℕ → List Pt × List (Road PL) →
    Except String (Option (List Pt) × List (Road PL))
  | [], acc => .ok (some (dedupBy G.ptEq acc.1), acc.2)
  | idx :: rest, acc =>
    match processRoad G iid lines acc.2 (idx : ℤ) with
    | .error e => .error e
    | .ok none => .ok (none, acc.2)
    | .ok (some (pts, roads1)) => mnpAux G iid lines rest (acc.1 ++ pts, roads1)

/-- Lines 216–348 of the source: the general corner solver for degree ≥ 3.
Returns `none` (and the roads mutated so far) when some road has no corner at
all, the deduplicated endpoint list otherwise. -/
def make_new_polygon (G : GeomOps Pt PL Ang Ln) (roads : List (Road PL))
    (iid : ℕ) (lines : List (ℕ × Ang × PL × PL)) :
    Except String (Option (List Pt) × List (Road PL)) :=
  mnpAux G iid lines (List.range lines.length) ([], roads)

/-- Lines 158–207 of the source, one iteration of the per-pair fallback for
the angularly adjacent pair at circular indices `(idx1, idx1 + 1)`: the
points this pair contributes and the warnings it emits. -/
def pairStep (G : GeomOps Pt PL Ang Ln) (iid : ℕ)
    (lines : List (ℕ × Ang × PL × PL)) (idx1 : ℤ) : List Pt × List Diag :=
  match wraparound_get lines idx1, wraparound_get lines (idx1 + 1) with
  | some e1, some e2 =>
    let id1 := e1.1
    let pl1 := e1.2.2.2
    let id2 := e2.1
    let pl2 := e2.2.2.1
    let angle_diff :=
      |G.normalizedDegrees (G.opposite (G.lineAngle (G.lastLine pl1)))
        - G.normalizedDegrees (G.lineAngle (G.lastLine pl2))|
    let direct : Option Pt :=
      if 15 < angle_diff then (G.plIntersection pl1 pl2).map Prod.fst else none
    match direct with
    | some hit => ([hit], [])
    | none =>
      let s1 : Pt × Bool :=
        match wraparound_get lines (idx1 - 1) with
        | some eprev =>
          match G.intersectionInfiniteLine pl1 (G.lastLine eprev.2.2.2) with
          | some hit => (hit, true)
          | none => (G.lastPt pl1, false)
        | none => (G.lastPt pl1, false)
      let s2 : Pt × Bool :=
        match wraparound_get lines (idx1 + 2) with
        | some enext =>
          match G.intersectionInfiniteLine pl2 (G.lastLine enext.2.2.1) with
          | some hit => (hit, true)
          | none => (G.lastPt pl2, false)
        | none => (G.lastPt pl2, false)
      ([s1.1, s2.1],
        if s1.2 && s2.2 then [] else [Diag.noHit id1 id2 iid lines.length])
  | _, _ => ([], [])

/-- The whole per-pair fallback loop of lines 157–207 of the source. -/
def fallbackPairs (G : GeomOps Pt PL Ang Ln) (iid : ℕ)
    (lines : List (ℕ × Ang × PL × PL)) : List Pt × List Diag :=
  (List.range lines.length).foldl
    (fun acc idx =>
      let s := pairStep G iid lines (idx : ℤ)
      (acc.1 ++ s.1, acc.2 ++ s.2))
    ([], [])

/-- Lines 211–213 of the source: close the polygon by pushing `endpoints[0]`,
whose indexing panics on an empty list. -/
def closeRing (endpoints : List Pt) (roads : List (Road PL)) (ds : List Diag) :
    Except String (List Pt × List (Road PL) × List Diag) :=
  match endpoints with
  | [] => .error "index out of bounds: endpoints is empty"
  | e0 :: _ => .ok (endpoints ++ [e0], roads, ds)

/-- Lines 15–214 of the source: `initial_intersection_polygon`.  The returned
triple is the closed polygon ring, the updated road collection (the `&mut`
parameter of the source) and the emitted diagnostics; `Except.error` stands
for a panic. -/
def initial_intersection_polygon (G : GeomOps Pt PL Ang Ln) (i : Intersection)
    (roads : List (Road PL)) :
    Except String (List Pt × List (Road PL) × List Diag) :=
  match mapExcept (buildLine G i roads) i.roads with
  | .error e => .error e
  | .ok lines0 =>
    let lines := sort_by_key (entryKey G) lines0
    match lines with
    | [e] =>
      let pl_a := e.2.2.1
      let pl_b := e.2.2.2
      let pt1 := (G.safeDistAlong (G.reversed pl_a)
        (DEGENERATE_INTERSECTION_HALF_LENGTH * 2)).map Prod.fst
      let pt2 := (G.safeDistAlong (G.reversed pl_b)
        (DEGENERATE_INTERSECTION_HALF_LENGTH * 2)).map Prod.fst
      match pt1, pt2 with
      | some p1, some p2 =>
        closeRing [p1, p2, G.lastPt pl_b, G.lastPt pl_a]
          (trimDeadEnd G i.id roads e.1) []
      | _, _ =>
        closeRing [G.lastPt pl_a, G.lastPt pl_b] roads
          [Diag.deadEndTooShort i.id e.1]
    | [e1, e2] =>
      let pl1_a := e1.2.2.1
      let pl1_b := e1.2.2.2
      let pl2_a := e2.2.2.1
      let pl2_b := e2.2.2.2
      if DEGENERATE_INTERSECTION_HALF_LENGTH ≤ G.plLength pl1_a
          ∧ DEGENERATE_INTERSECTION_HALF_LENGTH ≤ G.plLength pl1_b
          ∧ DEGENERATE_INTERSECTION_HALF_LENGTH ≤ G.plLength pl2_a
          ∧ DEGENERATE_INTERSECTION_HALF_LENGTH ≤ G.plLength pl2_b then
        closeRing
          (dedupBy G.ptEq
            [(G.distAlong (G.reversed pl1_a) DEGENERATE_INTERSECTION_HALF_LENGTH).1,
             (G.distAlong (G.reversed pl2_b) DEGENERATE_INTERSECTION_HALF_LENGTH).1,
             (G.distAlong (G.reversed pl2_a) DEGENERATE_INTERSECTION_HALF_LENGTH).1,
             (G.distAlong (G.reversed pl1_b) DEGENERATE_INTERSECTION_HALF_LENGTH).1])
          (trimDegenerate G i.id (trimDegenerate G i.id roads e1.1) e2.1) []
      else
        closeRing [G.lastPt pl1_a, G.lastPt pl1_b, G.lastPt pl2_a, G.lastPt pl2_b]
          roads [Diag.degenerateTooShort i.id e1.1 e2.1]
    | _ =>
      match make_new_polygon G roads i.id lines with
      | .error e => .error e
      | .ok (some pts, roads1) => closeRing pts roads1 []
      | .ok (none, roads1) =>
        let fb := fallbackPairs G i.id lines
        closeRing fb.1 roads1 (Diag.couldntMakeNew i.id lines.length :: fb.2)

/-- Parameters for a small concrete geometry used to evaluate the embedding
on closed inputs.  Points and line segments are natural-number tags, angles
are their normalized-degree value, and a polyline is a pair of its length and
a tag; the operations the geometry laws constrain are fixed below, while the
law-free operations (shifting, the two intersection tests, angles of lines)
are free parameters of each concrete scenario. -/
structure TestParams where
  shift : (ℚ × ℕ) → ℚ → Option (ℚ × ℕ)
  plInt : ℕ → ℕ → Option (ℕ × ℚ)
  infInt : ℕ → ℕ → Option ℕ
  lineAngle : ℕ → ℚ
  projAway : ℕ → ℚ → ℚ → ℕ
  lineNew : ℕ → ℕ → ℕ

/-- The concrete geometry built from `TestParams`: a polyline `(l, t)` has
length `|l|` and tag `t`; its last point and last line are its tag; slicing
produces a polyline of the clamped length; trimming to point `p` produces a
polyline of length `min |l| p`. -/
def mkG (P : TestParams) : GeomOps ℕ (ℚ × ℕ) ℚ ℕ where
  ptEq a b := a == b
  reversed pl := pl
  shift := P.shift
  lastLine pl := pl.2
  lineAngle := P.lineAngle
  lastPt pl := pl.2
  plLength pl := |pl.1|
  safeDistAlong pl d := if 0 ≤ d ∧ d ≤ |pl.1| then some (pl.2 + 100, 0) else none
  distAlong pl _ := (pl.2 + 100, 0)
  slice pl a b := ((max 0 (min b |pl.1| - max 0 (min a |pl.1|)), 0), 0)
  trimToPt pl p := (min |pl.1| (p : ℚ), pl.2)
  plIntersection p q := P.plInt p.2 q.2
  intersectionInfiniteLine pl ln := P.infInt pl.2 ln
  normalizedDegrees a := a
  opposite a := a + 180
  rotateDegs a d := a + d
  lineNew := P.lineNew
  projectAway := P.projAway

/-- The per-pair fallback computation as the claim's sentence literally
states it: the first border is intersected with the *next* road's far border
and the second border with the *previous* road's far border (the source does
the opposite). -/
def pairStepClaimed (G : GeomOps Pt PL Ang Ln) (iid : ℕ)
    (lines : List (ℕ × Ang × PL × PL)) (idx1 : ℤ) : List Pt × List Diag :=
  match wraparound_get lines idx1, wraparound_get lines (idx1 + 1) with
  | some e1, some e2 =>
    let id1 := e1.1
    let pl1 := e1.2.2.2
    let id2 := e2.1
    let pl2 := e2.2.2.1
    let angle_diff :=
      |G.normalizedDegrees (G.opposite (G.lineAngle (G.lastLine pl1)))
        - G.normalizedDegrees (G.lineAngle (G.lastLine pl2))|
    let direct : Option Pt :=
      if 15 < angle_diff then (G.plIntersection pl1 pl2).map Prod.fst else none
    match direct with
    | some hit => ([hit], [])
    | none =>
      let s1 : Pt × Bool :=
        match wraparound_get lines (idx1 + 2) with
        | some enext =>
          match G.intersectionInfiniteLine pl1 (G.lastLine enext.2.2.2) with
          | some hit => (hit, true)
          | none => (G.lastPt pl1, false)
        | none => (G.lastPt pl1, false)
      let s2 : Pt × Bool :=
        match wraparound_get lines (idx1 - 1) with
        | some eprev =>
          match G.intersectionInfiniteLine pl2 (G.lastLine eprev.2.2.1) with
          | some hit => (hit, true)
          | none => (G.lastPt pl2, false)
        | none => (G.lastPt pl2, false)
      ([s1.1, s2.1],
        if s1.2 && s2.2 then [] else [Diag.noHit id1 id2 iid lines.length])
  | _, _ => ([], [])

/-- Frame relation between the road collection before and after a call:
same number of roads, non-incident roads untouched, and every road keeps its
endpoints and lane children while its centerline length never grows. -/
def roadsFrame (G : GeomOps Pt PL Ang Ln) (ids : List ℕ)
    (roads0 roads1 : List (Road PL)) : Prop :=
  roads1.length = roads0.length ∧
  (∀ j, j ∉ ids → roads1.get? j = roads0.get? j) ∧
  (∀ j r0 r1, roads0.get? j = some r0 → roads1.get? j = some r1 →
    r1.src_i = r0.src_i ∧ r1.dst_i = r0.dst_i ∧
    r1.children_forwards = r0.children_forwards ∧
    r1.children_backwards = r0.children_backwards ∧
    G.plLength r1.center_pts ≤ G.plLength r0.center_pts)

/-- Concrete scenario data: a baseline parameter set.  Shifting a polyline
tags the border with the parent tag and the side (1 for the narrow width, 2
for the wide one); intersections are empty by default; the angle of a line is
its tag. -/
def defaultParams : TestParams where
  shift pl w := some (pl.1, 10 * pl.2 + (if w ≤ 3 then 1 else 2))
  plInt _ _ := none
  infInt _ _ := none
  lineAngle t := t
  projAway p _ _ := p + 1
  lineNew a b := 1000 * a + b

/-- Scenario for claim C1: three incident roads, where the forward corner of
the first road is found but the perpendicular through it misses the road
center. -/
def pC1 : TestParams :=
  { defaultParams with
    plInt := fun a b => if a = 11 ∧ b = 32 then some (55, 0) else none }

/-- Scenario for claim C1: the intersection. -/
def iC1 : Intersection := ⟨7, [0, 1, 2]⟩

/-- Scenario for claim C1: the roads, all with their destination at the
intersection. -/
def rC1 : List (Road (ℚ × ℕ)) :=
  [⟨9, 7, (10, 1), 1, 2⟩, ⟨9, 7, (10, 2), 1, 2⟩, ⟨9, 7, (10, 3), 1, 2⟩]

/-- Scenario for claim C2 (counterexample and witness): a dead end whose
borders are too short to walk back twice the half-length. -/
def iC2 : Intersection := ⟨7, [0]⟩

/-- Scenario for claim C2: the single short road. -/
def rC2 : List (Road (ℚ × ℕ)) := [⟨9, 7, (1, 1), 1, 2⟩]

/-- Scenario for claim C3 (witness): a dead end with a long road. -/
def iC3 : Intersection := ⟨7, [0]⟩

/-- Scenario for claim C3 (witness): the single long road. -/
def rC3 : List (Road (ℚ × ℕ)) := [⟨9, 7, (20, 1), 1, 2⟩]

/-- Scenario for claim C3 (counterexample): shifting lengthens the borders by
50, so the borders are long enough to walk while the centerline itself is
shorter than twice the half-length. -/
def pC3x : TestParams :=
  { defaultParams with
    shift := fun pl w => some (pl.1 + 50, 10 * pl.2 + (if w ≤ 3 then 1 else 2)) }

/-- Scenario for claim C3 (counterexample): the single short road with long
borders. -/
def rC3x : List (Road (ℚ × ℕ)) := [⟨9, 7, (1, 1), 1, 2⟩]

/-- Scenario for claim C4: a degree-2 intersection. -/
def iC4 : Intersection := ⟨7, [0, 1]⟩

/-- Scenario for claim C4 (witness): two long roads. -/
def rC4 : List (Road (ℚ × ℕ)) := [⟨9, 7, (20, 1), 1, 2⟩, ⟨9, 7, (20, 2), 1, 2⟩]

/-- Scenario for claim C4 (counterexample): border-lengthening shift, as in
the C3 counterexample. -/
def pC4x : TestParams :=
  { defaultParams with
    shift := fun pl w => some (pl.1 + 50, 10 * pl.2 + (if w ≤ 3 then 1 else 2)) }

/-- Scenario for claim C4 (counterexample): two short roads whose borders are
long. -/
def rC4x : List (Road (ℚ × ℕ)) := [⟨9, 7, (1, 1), 1, 2⟩, ⟨9, 7, (1, 2), 1, 2⟩]

/-- Scenario for claim C5: three roads; road 0 has both corners (trim
candidates of lengths 17 and 9), road 1 has neither. -/
def pC5 : TestParams :=
  { defaultParams with
    plInt := fun a b =>
      if a = 11 ∧ b = 32 then some (41, 0)
      else if a = 12 ∧ b = 21 then some (43, 0) else none
    infInt := fun pl ln =>
      if pl = 1 ∧ ln = 41042 then some 17
      else if pl = 1 ∧ ln = 43044 then some 9 else none }

/-- Scenario for claim C5: the intersection. -/
def iC5 : Intersection := ⟨7, [0, 1, 2]⟩

/-- Scenario for claim C5: the roads. -/
def rC5 : List (Road (ℚ × ℕ)) :=
  [⟨9, 7, (30, 1), 1, 2⟩, ⟨9, 7, (30, 2), 1, 2⟩, ⟨9, 7, (30, 3), 1, 2⟩]

/-- Scenario for claim C5: the sorted border list the builder produces for
`iC5`/`rC5`. -/
def lC5 : List (ℕ × ℚ × (ℚ × ℕ) × (ℚ × ℕ)) :=
  [(0, 1, (30, 11), (30, 12)), (1, 2, (30, 21), (30, 22)),
   (2, 3, (30, 31), (30, 32))]

/-- Scenario for claim C6 (counterexample): a self-loop road, with both
endpoints at the intersection. -/
def iC6 : Intersection := ⟨7, [0]⟩

/-- Scenario for claim C6 (counterexample): the self-loop road. -/
def rC6 : List (Road (ℚ × ℕ)) := [⟨7, 7, (1, 1), 1, 2⟩]

/-- Scenario for claim C6 (witness): a road with neither endpoint at the
intersection. -/
def rC6b : List (Road (ℚ × ℕ)) := [⟨1, 2, (1, 1), 1, 2⟩]

/-- Scenario for claim C7: a dead end too short to trim. -/
def iC7 : Intersection := ⟨7, [0]⟩

/-- Scenario for claim C7: the single short road. -/
def rC7 : List (Road (ℚ × ℕ)) := [⟨9, 7, (1, 1), 1, 2⟩]

/-- Scenario for claim C8: only the source's neighbor assignment (previous
road for the first border, next-next road for the second) yields hits. -/
def pC8 : TestParams :=
  { defaultParams with
    lineAngle := fun _ => 0
    infInt := fun pl ln =>
      if pl = 12 ∧ ln = 42 then some 77
      else if pl = 21 ∧ ln = 31 then some 88 else none }

/-- Scenario for claim C8: a sorted border list with four roads. -/
def lC8 : List (ℕ × ℚ × (ℚ × ℕ) × (ℚ × ℕ)) :=
  [(0, 0, (5, 11), (5, 12)), (1, 0, (5, 21), (5, 22)),
   (2, 0, (5, 31), (5, 32)), (3, 0, (5, 41), (5, 42))]

/-- Scenario for claim C10: a dead end with a long road. -/
def iC10 : Intersection := ⟨7, [0]⟩

/-- Scenario for claim C10: the single long road. -/
def rC10 : List (Road (ℚ × ℕ)) := [⟨9, 7, (20, 1), 1, 2⟩]

/-- The concrete geometry satisfies the spec-derived laws, whatever the free
parameters are. -/
theorem mkG_laws (P : TestParams) : GeomLaws (mkG P) where
  len_nonneg pl := abs_nonneg pl.1
  rev_len pl := rfl
  slice_len pl a b := by
    simp only [mkG]
    exact abs_of_nonneg (le_max_left 0 _)
  trim_le pl p := by
    simp only [mkG]
    rw [abs_of_nonneg (le_min (abs_nonneg pl.1) (Nat.cast_nonneg p))]
    exact min_le_left _ _

theorem mapExcept_ok_of_mem {α β ε : Type} {f : α → Except ε β} {l : List α}
    {ys : List β} {x : α} (h : mapExcept f l = .ok ys) (hx : x ∈ l) :
    ∃ y, f x = .ok y := by
  induction l generalizing ys with
  | nil => cases hx
  | cons a as ih =>
    rw [mapExcept] at h
    rcases hfa : f a with e | y
    · rw [hfa] at h; cases h
    · rw [hfa] at h
      rcases hrec : mapExcept f as with e | ys0
      · rw [hrec] at h; cases h
      · rcases List.mem_cons.mp hx with rfl | hx0
        · exact ⟨y, hfa⟩
        · exact ih hrec hx0

theorem mapExcept_error_of_mem {α β ε : Type} {f : α → Except ε β} {l : List α}
    {x : α} {e0 : ε} (hx : x ∈ l) (hfx : f x = .error e0) :
    ∃ e, mapExcept f l = .error e := by
  induction l with
  | nil => cases hx
  | cons a as ih =>
    rw [mapExcept]
    rcases hfa : f a with e | y
    · exact ⟨e, rfl⟩
    · rcases List.mem_cons.mp hx with rfl | hx0
      · rw [hfa] at hfx; cases hfx
      · rcases ih hx0 with ⟨e, he⟩
        rw [he]
        exact ⟨e, rfl⟩

theorem mapExcept_length {α β ε : Type} {f : α → Except ε β} {l : List α}
    {ys : List β} (h : mapExcept f l = .ok ys) : ys.length = l.length := by
  induction l generalizing ys with
  | nil => rw [mapExcept] at h; cases h; rfl
  | cons a as ih =>
    rw [mapExcept] at h
    rcases hfa : f a with e | y
    · rw [hfa] at h; cases h
    · rw [hfa] at h
      rcases hrec : mapExcept f as with e | ys0
      · rw [hrec] at h; cases h
      · rw [hrec] at h
        cases h
        simp [ih hrec]

theorem mapExcept_mem_ok {α β ε : Type} {f : α → Except ε β} {l : List α}
    {ys : List β} {y : β} (h : mapExcept f l = .ok ys) (hy : y ∈ ys) :
    ∃ x ∈ l, f x = .ok y := by
  induction l generalizing ys with
  | nil => rw [mapExcept] at h; cases h; cases hy
  | cons a as ih =>
    rw [mapExcept] at h
    rcases hfa : f a with e | y0
    · rw [hfa] at h; cases h
    · rw [hfa] at h
      rcases hrec : mapExcept f as with e | ys0
      · rw [hrec] at h; cases h
      · rw [hrec] at h
        cases h
        rcases List.mem_cons.mp hy with rfl | hy0
        · exact ⟨a, List.mem_cons_self a as, hfa⟩
        · rcases ih hrec hy0 with ⟨x, hxl, hfx⟩
          exact ⟨x, List.mem_cons_of_mem a hxl, hfx⟩

theorem wraparound_get_isSome {α : Type} (l : List α) (idx : ℤ) (h : l ≠ []) :
    ∃ a, wraparound_get l idx = some a := by
  have hn : 0 < (l.length : ℤ) := by
    have := List.length_pos.mpr h
    exact_mod_cast this
  unfold wraparound_get
  have h1 : 0 ≤ (idx % (l.length : ℤ) + (l.length : ℤ)) % (l.length : ℤ) :=
    Int.emod_nonneg _ (ne_of_gt hn)
  have h2 : (idx % (l.length : ℤ) + (l.length : ℤ)) % (l.length : ℤ) < (l.length : ℤ) :=
    Int.emod_lt_of_pos _ hn
  have h3 : ((idx % (l.length : ℤ) + (l.length : ℤ)) % (l.length : ℤ)).toNat < l.length := by
    omega
  rcases List.get?_eq_get h3 with h4
  exact ⟨_, h4⟩

theorem wraparound_get_mem {α : Type} {l : List α} {idx : ℤ} {a : α}
    (h : wraparound_get l idx = some a) : a ∈ l :=
  List.get?_mem h

theorem dedupFrom_cons {α : Type} (eq : α → α → Bool) (x : α) (l : List α) :
    ∃ t, dedupFrom eq x l = x :: t := by
  induction l generalizing x with
  | nil => exact ⟨[], rfl⟩
  | cons y ys ih =>
    rw [dedupFrom]
    by_cases h : eq x y
    · simpa [h] using ih x
    · exact ⟨dedupFrom eq y ys, by simp [h]⟩

theorem dedupBy_cons {α : Type} (eq : α → α → Bool) (x : α) (l : List α) :
    ∃ t, dedupBy eq (x :: l) = x :: t :=
  dedupFrom_cons eq x l

theorem closeRing_closed {roads : List (Road PL)} {l : List Pt} {ds : List Diag}
    {out : List Pt × List (Road PL) × List Diag}
    (h : closeRing l roads ds = .ok out) :
    out.1 ≠ [] ∧ out.1.head? = out.1.getLast? := by
  rcases l with _ | ⟨e0, rest⟩
  · cases h
  · rw [closeRing] at h
    cases h
    refine ⟨by simp, ?_⟩
    rw [List.getLast?_append_cons]
    simp

theorem closeRing_cons (e0 : Pt) (rest : List Pt) (roads : List (Road PL))
    (ds : List Diag) :
    closeRing (e0 :: rest) roads ds = .ok ((e0 :: rest) ++ [e0], roads, ds) := rfl

theorem insertByKey_perm {α : Type} (key : α → ℤ) (x : α) (l : List α) :
    (insertByKey key x l).Perm (x :: l) := by
  induction l with
  | nil => exact List.Perm.refl _
  | cons y ys ih =>
    rw [insertByKey]
    by_cases h : key x ≤ key y
    · rw [if_pos h]
    · rw [if_neg h]
      exact (ih.cons y).trans (List.Perm.swap x y ys)

theorem sort_by_key_perm {α : Type} (key : α → ℤ) (l : List α) :
    (sort_by_key key l).Perm l := by
  induction l with
  | nil => exact List.Perm.refl _
  | cons x xs ih => exact (insertByKey_perm key x _).trans (ih.cons x)

theorem insertByKey_pairwise {α : Type} (key : α → ℤ) (x : α) {l : List α}
    (h : l.Pairwise fun a b => key a ≤ key b) :
    (insertByKey key x l).Pairwise fun a b => key a ≤ key b := by
  induction l with
  | nil => simp [insertByKey]
  | cons y ys ih =>
    rw [insertByKey]
    rcases List.pairwise_cons.mp h with ⟨hy, hys⟩
    by_cases hxy : key x ≤ key y
    · simp only [hxy, if_true]
      refine List.pairwise_cons.mpr ⟨?_, h⟩
      intro b hb
      rcases List.mem_cons.mp hb with rfl | hb0
      · exact hxy
      · exact le_trans hxy (hy b hb0)
    · simp only [hxy, if_false]
      refine List.pairwise_cons.mpr ⟨?_, ih hys⟩
      intro b hb
      rcases List.mem_cons.mp ((insertByKey_perm key x ys).mem_iff.mp hb) with rfl | hb0
      · exact le_of_lt (lt_of_not_le hxy)
      · exact hy b hb0

theorem sort_by_key_pairwise {α : Type} (key : α → ℤ) (l : List α) :
    (sort_by_key key l).Pairwise fun a b => key a ≤ key b := by
  induction l with
  | nil => simp [sort_by_key]
  | cons x xs ih => exact insertByKey_pairwise key x ih

theorem insertByKey_filter_eq {α : Type} (key : α → ℤ) (x : α) (l : List α)
    (m : ℤ) (hx : key x = m) :
    (insertByKey key x l).filter (fun a => key a == m) =
      x :: l.filter (fun a => key a == m) := by
  induction l with
  | nil => simp [insertByKey, List.filter_cons, hx]
  | cons y ys ih =>
    rw [insertByKey]
    by_cases hxy : key x ≤ key y
    · simp only [hxy, if_true]
      simp [List.filter_cons, hx]
    · simp only [hxy, if_false]
      have hy : ¬ key y = m := fun hym => hxy (le_of_eq (hx.trans hym.symm))
      simp [List.filter_cons, hy, ih]

theorem insertByKey_filter_ne {α : Type} (key : α → ℤ) (x : α) (l : List α)
    (m : ℤ) (hx : key x ≠ m) :
    (insertByKey key x l).filter (fun a => key a == m) =
      l.filter (fun a => key a == m) := by
  induction l with
  | nil => simp [insertByKey, List.filter_cons, hx]
  | cons y ys ih =>
    rw [insertByKey]
    by_cases hxy : key x ≤ key y
    · simp only [hxy, if_true]
      simp [List.filter_cons, hx]
    · simp only [hxy, if_false]
      by_cases hy : key y = m
      · simp [List.filter_cons, hy, ih]
      · simp [List.filter_cons, hy, ih]

theorem sort_by_key_stable {α : Type} (key : α → ℤ) (l : List α) (m : ℤ) :
    (sort_by_key key l).filter (fun a => key a == m) =
      l.filter (fun a => key a == m) := by
  induction l with
  | nil => rfl
  | cons x xs ih =>
    rw [sort_by_key]
    by_cases hx : key x = m
    · rw [insertByKey_filter_eq key x _ m hx, ih]
      simp [List.filter_cons, hx]
    · rw [insertByKey_filter_ne key x _ m hx, ih]
      simp [List.filter_cons, hx]

theorem trimDeadEnd_trim {G : GeomOps Pt PL Ang Ln} (hG : GeomLaws G)
    (iid : ℕ) (roads : List (Road PL)) (id : ℕ) (r : Road PL)
    (hr : roads.get? id = some r)
    (hlen : DEGENERATE_INTERSECTION_HALF_LENGTH * 2 ≤ G.plLength r.center_pts) :
    ∃ r1, trimDeadEnd G iid roads id = roads.set id r1
      ∧ G.plLength r1.center_pts
          = G.plLength r.center_pts - DEGENERATE_INTERSECTION_HALF_LENGTH * 2
      ∧ r1.src_i = r.src_i ∧ r1.dst_i = r.dst_i
      ∧ r1.children_forwards = r.children_forwards
      ∧ r1.children_backwards = r.children_backwards := by
  rw [trimDeadEnd, hr]
  dsimp only
  have h0 : (0:ℚ) ≤ DEGENERATE_INTERSECTION_HALF_LENGTH * 2 := by
    norm_num [DEGENERATE_INTERSECTION_HALF_LENGTH]
  have hL0 : 0 ≤ G.plLength r.center_pts := hG.len_nonneg _
  by_cases hs : r.src_i = iid
  · rw [if_pos hs]
    refine ⟨_, rfl, ?_, rfl, rfl, rfl, rfl⟩
    rw [hG.slice_len, min_self, min_eq_left hlen, max_eq_right h0,
      max_eq_right (by linarith)]
  · rw [if_neg hs]
    refine ⟨_, rfl, ?_, rfl, rfl, rfl, rfl⟩
    rw [hG.slice_len, min_eq_left hL0, max_self,
      min_eq_left (by linarith), sub_zero, max_eq_right (by linarith)]

theorem trimDegenerate_trim {G : GeomOps Pt PL Ang Ln} (hG : GeomLaws G)
    (iid : ℕ) (roads : List (Road PL)) (id : ℕ) (r : Road PL)
    (hr : roads.get? id = some r)
    (hlen : DEGENERATE_INTERSECTION_HALF_LENGTH ≤ G.plLength r.center_pts) :
    ∃ r1, trimDegenerate G iid roads id = roads.set id r1
      ∧ G.plLength r1.center_pts
          = G.plLength r.center_pts - DEGENERATE_INTERSECTION_HALF_LENGTH
      ∧ r1.src_i = r.src_i ∧ r1.dst_i = r.dst_i
      ∧ r1.children_forwards = r.children_forwards
      ∧ r1.children_backwards = r.children_backwards := by
  rw [trimDegenerate, hr]
  dsimp only
  have h0 : (0:ℚ) ≤ DEGENERATE_INTERSECTION_HALF_LENGTH := by
    norm_num [DEGENERATE_INTERSECTION_HALF_LENGTH]
  have hL0 : 0 ≤ G.plLength r.center_pts := hG.len_nonneg _
  by_cases hs : r.src_i = iid
  · rw [if_pos hs]
    refine ⟨_, rfl, ?_, rfl, rfl, rfl, rfl⟩
    rw [hG.slice_len, min_self, min_eq_left hlen, max_eq_right h0,
      max_eq_right (by linarith)]
  · rw [if_neg hs]
    refine ⟨_, rfl, ?_, rfl, rfl, rfl, rfl⟩
    rw [hG.slice_len, min_eq_left hL0, max_self,
      min_eq_left (by linarith), sub_zero, max_eq_right (by linarith)]

/-- C9: the incident-road sort orders entries by the integer truncation of
the normalized degrees of their last-segment angle (`entryKey`), permutes the
input, and is stable: entries in the same integer-degree bucket keep their
original relative order. -/
theorem C9_angular_sort {Pt PL Ang Ln : Type} (G : GeomOps Pt PL Ang Ln)
    (l : List (ℕ × Ang × PL × PL)) :
    (sort_by_key (entryKey G) l).Pairwise
        (fun a b => entryKey G a ≤ entryKey G b)
    ∧ (sort_by_key (entryKey G) l).Perm l
    ∧ ∀ m : ℤ, (sort_by_key (entryKey G) l).filter (fun e => entryKey G e == m)
        = l.filter (fun e => entryKey G e == m) :=
  ⟨sort_by_key_pairwise _ l, sort_by_key_perm _ l,
    fun m => sort_by_key_stable _ l m⟩

/-- C6 (amended): if some incident road records the intersection as neither
its source nor its destination, `initial_intersection_polygon` panics
(an `Except.error` in the embedding) instead of producing geometry. -/
theorem C6_missing_endpoint_panics {Pt PL Ang Ln : Type}
    (G : GeomOps Pt PL Ang Ln) (i : Intersection) (roads : List (Road PL))
    (id : ℕ) (r : Road PL)
    (hmem : id ∈ i.roads) (hr : roads.get? id = some r)
    (hsrc : r.src_i ≠ i.id) (hdst : r.dst_i ≠ i.id) :
    ∃ e, initial_intersection_polygon G i roads = .error e := by
  have hbl : buildLine G i roads id =
      .error "Incident road does not have an endpoint at the intersection" := by
    rw [buildLine, hr]
    simp [hsrc, hdst]
  rcases mapExcept_error_of_mem hmem hbl with ⟨e, he⟩
  refine ⟨e, ?_⟩
  rw [initial_intersection_polygon, he]

/-- C6 (counterexample): a self-loop road records the intersection as both
source and destination — not exactly one — yet the function completes
normally rather than panicking, because the source only checks `src_i`
first and never enforces exclusivity. -/
theorem C6_self_loop_no_panic :
    rC6.get? 0 = some ⟨7, 7, (1, 1), 1, 2⟩
    ∧ iC6.id = 7
    ∧ initial_intersection_polygon (mkG defaultParams) iC6 rC6
        = .ok ([12, 11, 12], rC6, [Diag.deadEndTooShort 7 0]) :=
  ⟨rfl, rfl, by with_unfolding_all rfl⟩

/-- C7: a dead end whose borders are too short to walk back twice the
half-length produces exactly the two border endpoints (then the closing
point), leaves every road untouched, and emits the degradation
diagnostic. -/
theorem C7_degraded_dead_end {Pt PL Ang Ln : Type} (G : GeomOps Pt PL Ang Ln)
    (i : Intersection) (roads : List (Road PL)) (id : ℕ) (ang : Ang)
    (pl_a pl_b : PL)
    (hroads : i.roads = [id])
    (hbl : buildLine G i roads id = .ok (id, ang, pl_a, pl_b))
    (hfail : G.safeDistAlong (G.reversed pl_a)
          (DEGENERATE_INTERSECTION_HALF_LENGTH * 2) = none
      ∨ G.safeDistAlong (G.reversed pl_b)
          (DEGENERATE_INTERSECTION_HALF_LENGTH * 2) = none) :
    initial_intersection_polygon G i roads
      = .ok ([G.lastPt pl_a, G.lastPt pl_b, G.lastPt pl_a], roads,
          [Diag.deadEndTooShort i.id id]) := by
  rw [initial_intersection_polygon, hroads]
  have hmap : mapExcept (buildLine G i roads) [id] = .ok [(id, ang, pl_a, pl_b)] := by
    rw [mapExcept, hbl, mapExcept]
  rw [hmap]
  dsimp only [sort_by_key, insertByKey]
  rcases hfail with hf | hf
  · rw [hf]
    rcases hq : G.safeDistAlong (G.reversed pl_b)
        (DEGENERATE_INTERSECTION_HALF_LENGTH * 2) with _ | q
    · rfl
    · rfl
  · rw [hf]
    rcases hq : G.safeDistAlong (G.reversed pl_a)
        (DEGENERATE_INTERSECTION_HALF_LENGTH * 2) with _ | q
    · rfl
    · rfl

/-- C3 (amended): for a dead end whose two offset borders are long enough to
walk backward twice the half-length, and whose centerline is itself at least
twice the half-length, the polygon is exactly the two walked points followed
by the two borders' endpoints (four points, then the closing point), and the
centerline loses exactly twice the half-length. -/
theorem C3_dead_end_trim {Pt PL Ang Ln : Type} (G : GeomOps Pt PL Ang Ln)
    (hG : GeomLaws G) (i : Intersection) (roads : List (Road PL)) (id : ℕ)
    (ang : Ang) (pl_a pl_b : PL) (r : Road PL) (q1 q2 : Pt × Ang)
    (hroads : i.roads = [id])
    (hbl : buildLine G i roads id = .ok (id, ang, pl_a, pl_b))
    (hr : roads.get? id = some r)
    (h1 : G.safeDistAlong (G.reversed pl_a)
        (DEGENERATE_INTERSECTION_HALF_LENGTH * 2) = some q1)
    (h2 : G.safeDistAlong (G.reversed pl_b)
        (DEGENERATE_INTERSECTION_HALF_LENGTH * 2) = some q2)
    (hlen : DEGENERATE_INTERSECTION_HALF_LENGTH * 2 ≤ G.plLength r.center_pts) :
    ∃ r1 : Road PL,
      initial_intersection_polygon G i roads =
        .ok ([q1.1, q2.1, G.lastPt pl_b, G.lastPt pl_a, q1.1], roads.set id r1, [])
      ∧ G.plLength r1.center_pts
          = G.plLength r.center_pts - DEGENERATE_INTERSECTION_HALF_LENGTH * 2 := by
  rcases trimDeadEnd_trim hG i.id roads id r hr hlen with ⟨r1, htrim, hlen1, _⟩
  refine ⟨r1, ?_, hlen1⟩
  rw [initial_intersection_polygon, hroads]
  have hmap : mapExcept (buildLine G i roads) [id] = .ok [(id, ang, pl_a, pl_b)] := by
    rw [mapExcept, hbl, mapExcept]
  rw [hmap]
  dsimp only [sort_by_key, insertByKey]
  rw [h1, h2]
  dsimp only [Option.map]
  rw [htrim]
  rfl

/-- C4 (amended): for a degree-2 intersection whose four offset borders are
at least the half-length long, and whose two centerlines are themselves at
least the half-length long, the polygon is the deduplication of the four
points walked backward the half-length along road-1 normal, road-2 reverse,
road-2 normal, road-1 reverse (in that order), and both centerlines lose
exactly the half-length. -/
theorem C4_degenerate_two_trim {Pt PL Ang Ln : Type} (G : GeomOps Pt PL Ang Ln)
    (hG : GeomLaws G) (i : Intersection) (roads : List (Road PL))
    (ida idb : ℕ) (ang1 ang2 : Ang) (pl1_a pl1_b pl2_a pl2_b : PL)
    (r1 r2 : Road PL)
    (hroads : i.roads = [ida, idb])
    (hbl1 : buildLine G i roads ida = .ok (ida, ang1, pl1_a, pl1_b))
    (hbl2 : buildLine G i roads idb = .ok (idb, ang2, pl2_a, pl2_b))
    (hkey : entryKey G (ida, ang1, pl1_a, pl1_b)
        ≤ entryKey G (idb, ang2, pl2_a, pl2_b))
    (hne : ida ≠ idb)
    (hr1 : roads.get? ida = some r1) (hr2 : roads.get? idb = some r2)
    (hl1 : DEGENERATE_INTERSECTION_HALF_LENGTH ≤ G.plLength pl1_a)
    (hl2 : DEGENERATE_INTERSECTION_HALF_LENGTH ≤ G.plLength pl1_b)
    (hl3 : DEGENERATE_INTERSECTION_HALF_LENGTH ≤ G.plLength pl2_a)
    (hl4 : DEGENERATE_INTERSECTION_HALF_LENGTH ≤ G.plLength pl2_b)
    (hc1 : DEGENERATE_INTERSECTION_HALF_LENGTH ≤ G.plLength r1.center_pts)
    (hc2 : DEGENERATE_INTERSECTION_HALF_LENGTH ≤ G.plLength r2.center_pts) :
    ∃ (t : List Pt) (r1' r2' : Road PL),
      dedupBy G.ptEq
          [(G.distAlong (G.reversed pl1_a) DEGENERATE_INTERSECTION_HALF_LENGTH).1,
           (G.distAlong (G.reversed pl2_b) DEGENERATE_INTERSECTION_HALF_LENGTH).1,
           (G.distAlong (G.reversed pl2_a) DEGENERATE_INTERSECTION_HALF_LENGTH).1,
           (G.distAlong (G.reversed pl1_b) DEGENERATE_INTERSECTION_HALF_LENGTH).1]
        = (G.distAlong (G.reversed pl1_a) DEGENERATE_INTERSECTION_HALF_LENGTH).1 :: t
      ∧ initial_intersection_polygon G i roads
          = .ok (((G.distAlong (G.reversed pl1_a)
                DEGENERATE_INTERSECTION_HALF_LENGTH).1 :: t)
              ++ [(G.distAlong (G.reversed pl1_a)
                DEGENERATE_INTERSECTION_HALF_LENGTH).1],
              (roads.set ida r1').set idb r2', [])
      ∧ G.plLength r1'.center_pts
          = G.plLength r1.center_pts - DEGENERATE_INTERSECTION_HALF_LENGTH
      ∧ G.plLength r2'.center_pts
          = G.plLength r2.center_pts - DEGENERATE_INTERSECTION_HALF_LENGTH := by
  rcases trimDegenerate_trim hG i.id roads ida r1 hr1 hc1 with
    ⟨r1', htrim1, hlen1, _⟩
  have hr2b : (roads.set ida r1').get? idb = some r2 := by
    rw [List.get?_set_ne _ _ hne]
    exact hr2
  rcases trimDegenerate_trim hG i.id (roads.set ida r1') idb r2 hr2b hc2 with
    ⟨r2', htrim2, hlen2, _⟩
  rcases dedupBy_cons G.ptEq
      ((G.distAlong (G.reversed pl1_a) DEGENERATE_INTERSECTION_HALF_LENGTH).1)
      [(G.distAlong (G.reversed pl2_b) DEGENERATE_INTERSECTION_HALF_LENGTH).1,
       (G.distAlong (G.reversed pl2_a) DEGENERATE_INTERSECTION_HALF_LENGTH).1,
       (G.distAlong (G.reversed pl1_b) DEGENERATE_INTERSECTION_HALF_LENGTH).1]
    with ⟨t, hdedup⟩
  refine ⟨t, r1', r2', hdedup, ?_, hlen1, hlen2⟩
  rw [initial_intersection_polygon, hroads]
  have hmap : mapExcept (buildLine G i roads) [ida, idb]
      = .ok [(ida, ang1, pl1_a, pl1_b), (idb, ang2, pl2_a, pl2_b)] := by
    rw [mapExcept, hbl1, mapExcept, hbl2, mapExcept]
  rw [hmap]
  dsimp only
  have hsort : sort_by_key (entryKey G)
      [(ida, ang1, pl1_a, pl1_b), (idb, ang2, pl2_a, pl2_b)]
      = [(ida, ang1, pl1_a, pl1_b), (idb, ang2, pl2_a, pl2_b)] := by
    dsimp only [sort_by_key, insertByKey]
    rw [if_pos hkey]
  rw [hsort]
  dsimp only
  rw [if_pos ⟨hl1, hl2, hl3, hl4⟩, htrim1, htrim2, hdedup, closeRing_cons]

/-- C2 (amended): whenever `initial_intersection_polygon` returns at all for
an intersection of degree at least 1, the returned ring is nonempty and its
first point equals its last point. -/
theorem C2_ring_closed {Pt PL Ang Ln : Type} (G : GeomOps Pt PL Ang Ln)
    (i : Intersection) (roads : List (Road PL))
    (out : List Pt × List (Road PL) × List Diag)
    (hdeg : i.roads ≠ [])
    (h : initial_intersection_polygon G i roads = .ok out) :
    out.1 ≠ [] ∧ out.1.head? = out.1.getLast? := by
  rw [initial_intersection_polygon] at h
  rcases hmap : mapExcept (buildLine G i roads) i.roads with e | lines0
  · rw [hmap] at h; cases h
  · rw [hmap] at h
    dsimp only at h
    rcases hlines : sort_by_key (entryKey G) lines0 with _ | ⟨e1, rest1⟩
    · rw [hlines] at h
      dsimp only at h
      rcases hmnp : make_new_polygon G roads i.id [] with e | ⟨opt, roads1⟩
      · rw [hmnp] at h; cases h
      · rw [hmnp] at h
        rcases opt with _ | pts
        · exact closeRing_closed h
        · exact closeRing_closed h
    · rcases rest1 with _ | ⟨e2, rest2⟩
      · rw [hlines] at h
        dsimp only at h
        rcases hq1 : G.safeDistAlong (G.reversed e1.2.2.1)
            (DEGENERATE_INTERSECTION_HALF_LENGTH * 2) with _ | q1
        · rw [hq1] at h
          dsimp only [Option.map] at h
          exact closeRing_closed h
        · rw [hq1] at h
          rcases hq2 : G.safeDistAlong (G.reversed e1.2.2.2)
              (DEGENERATE_INTERSECTION_HALF_LENGTH * 2) with _ | q2
          · rw [hq2] at h
            dsimp only [Option.map] at h
            exact closeRing_closed h
          · rw [hq2] at h
            dsimp only [Option.map] at h
            exact closeRing_closed h
      · rcases rest2 with _ | ⟨e3, rest3⟩
        · rw [hlines] at h
          dsimp only at h
          by_cases hcond : DEGENERATE_INTERSECTION_HALF_LENGTH ≤ G.plLength e1.2.2.1
              ∧ DEGENERATE_INTERSECTION_HALF_LENGTH ≤ G.plLength e1.2.2.2
              ∧ DEGENERATE_INTERSECTION_HALF_LENGTH ≤ G.plLength e2.2.2.1
              ∧ DEGENERATE_INTERSECTION_HALF_LENGTH ≤ G.plLength e2.2.2.2
          · rw [if_pos hcond] at h
            exact closeRing_closed h
          · rw [if_neg hcond] at h
            exact closeRing_closed h
        · rw [hlines] at h
          dsimp only at h
          rcases hmnp : make_new_polygon G roads i.id (e1 :: e2 :: e3 :: rest3)
              with e | ⟨opt, roads1⟩
          · rw [hmnp] at h; cases h
          · rw [hmnp] at h
            rcases opt with _ | pts
            · exact closeRing_closed h
            · exact closeRing_closed h

/-- C2 (counterexample): a degree-1 intersection whose borders are too short
returns a closed ring with only two points before the closing point — fewer
than the three distinct points the claim requires. -/
theorem C2_counterexample :
    initial_intersection_polygon (mkG defaultParams) iC2 rC2
        = .ok ([11, 12, 11], rC2, [Diag.deadEndTooShort 7 0])
    ∧ ([11, 12] : List ℕ).dedup.length < 3 :=
  ⟨by with_unfolding_all rfl, by decide⟩

/-- C2 (witness): the amended theorem applied to a concrete degraded dead
end. -/
theorem C2_ring_closed_witness :
    ([11, 12, 11] : List ℕ) ≠ []
    ∧ ([11, 12, 11] : List ℕ).head? = ([11, 12, 11] : List ℕ).getLast? :=
  C2_ring_closed (mkG defaultParams) iC2 rC2
    ([11, 12, 11], rC2, [Diag.deadEndTooShort 7 0])
    (by decide) (by with_unfolding_all rfl)

theorem c5_both {Pt PL Ang Ln : Type} (G : GeomOps Pt PL Ang Ln)
    (hG : GeomLaws G) (iid : ℕ) (lines : List (ℕ × Ang × PL × PL))
    (roads : List (Road PL)) (idx : ℤ) (id ida1 ida2 : ℕ)
    (angE anga1 anga2 : Ang)
    (fwd_pl back_pl adj_back_pl adj1r adj2n adj_fwd_pl : PL)
    (r0 : Road PL) (road_center c1 c2 sc : PL) (ncw : PL × ℚ × ℚ)
    (hit1 hit2 t1 t2 : Pt) (a1 a2 : Ang) (pl_normal pl_rev0 : PL)
    (hw1 : wraparound_get lines idx = some (id, angE, fwd_pl, back_pl))
    (hw2 : wraparound_get lines (idx + 1) = some (ida1, anga1, adj_back_pl, adj1r))
    (hw3 : wraparound_get lines (idx - 1) = some (ida2, anga2, adj2n, adj_fwd_pl))
    (hr : roads.get? id = some r0)
    (hrc : road_center
      = (if r0.dst_i = iid then r0.center_pts else G.reversed r0.center_pts))
    (hif : G.plIntersection fwd_pl adj_fwd_pl = some (hit1, a1))
    (hpf : G.intersectionInfiniteLine road_center
        (G.lineNew hit1 (G.projectAway hit1 1 (G.rotateDegs a1 90))) = some t1)
    (hib : G.plIntersection back_pl adj_back_pl = some (hit2, a2))
    (hpb : G.intersectionInfiniteLine road_center
        (G.lineNew hit2 (G.projectAway hit2 1 (G.rotateDegs a2 90))) = some t2)
    (hc1 : c1 = G.trimToPt road_center t1)
    (hc2 : c2 = G.trimToPt road_center t2)
    (hsc : sc = (if G.plLength c1 ≤ G.plLength c2 then c1 else c2))
    (hncw : ncw = (if r0.src_i = iid then
        (G.reversed sc, LANE_THICKNESS * (r0.children_backwards : ℚ),
          LANE_THICKNESS * (r0.children_forwards : ℚ))
      else
        (sc, LANE_THICKNESS * (r0.children_forwards : ℚ),
          LANE_THICKNESS * (r0.children_backwards : ℚ))))
    (hshn : G.shift sc ncw.2.1 = some pl_normal)
    (hshr : G.shift (G.reversed sc) ncw.2.2 = some pl_rev0) :
    processRoad G iid lines roads idx
      = .ok (some ([hit1, G.lastPt pl_normal, G.lastPt (G.reversed pl_rev0), hit2],
          roads.set id { r0 with center_pts := ncw.1 }))
    ∧ G.plLength ncw.1 = min (G.plLength c1) (G.plLength c2) := by
  constructor
  · rw [processRoad, hw1, hw2, hw3]
    dsimp only
    rw [hr]
    dsimp only
    rw [← hrc, hif]
    dsimp only
    rw [hpf]
    dsimp only
    rw [hib]
    dsimp only
    rw [hpb]
    dsimp only
    rw [← hc1, ← hc2, ← hsc, ← hncw, hshn]
    dsimp only
    rw [hshr]
    rfl
  · rw [hncw]
    by_cases hs : r0.src_i = iid
    · rw [if_pos hs]
      dsimp only
      rw [hG.rev_len, hsc]
      by_cases hle : G.plLength c1 ≤ G.plLength c2
      · rw [if_pos hle, min_eq_left hle]
      · rw [if_neg hle, min_eq_right (le_of_not_le hle)]
    · rw [if_neg hs]
      dsimp only
      rw [hsc]
      by_cases hle : G.plLength c1 ≤ G.plLength c2
      · rw [if_pos hle, min_eq_left hle]
      · rw [if_neg hle, min_eq_right (le_of_not_le hle)]

theorem c5_fwd_only {Pt PL Ang Ln : Type} (G : GeomOps Pt PL Ang Ln)
    (hG : GeomLaws G) (iid : ℕ) (lines : List (ℕ × Ang × PL × PL))
    (roads : List (Road PL)) (idx : ℤ) (id ida1 ida2 : ℕ)
    (angE anga1 anga2 : Ang)
    (fwd_pl back_pl adj_back_pl adj1r adj2n adj_fwd_pl : PL)
    (r0 : Road PL) (road_center c1 : PL) (ncw : PL × ℚ × ℚ)
    (hit1 t1 : Pt) (a1 : Ang) (pl_normal pl_rev0 : PL)
    (hw1 : wraparound_get lines idx = some (id, angE, fwd_pl, back_pl))
    (hw2 : wraparound_get lines (idx + 1) = some (ida1, anga1, adj_back_pl, adj1r))
    (hw3 : wraparound_get lines (idx - 1) = some (ida2, anga2, adj2n, adj_fwd_pl))
    (hr : roads.get? id = some r0)
    (hrc : road_center
      = (if r0.dst_i = iid then r0.center_pts else G.reversed r0.center_pts))
    (hif : G.plIntersection fwd_pl adj_fwd_pl = some (hit1, a1))
    (hpf : G.intersectionInfiniteLine road_center
        (G.lineNew hit1 (G.projectAway hit1 1 (G.rotateDegs a1 90))) = some t1)
    (hibn : G.plIntersection back_pl adj_back_pl = none)
    (hc1 : c1 = G.trimToPt road_center t1)
    (hncw : ncw = (if r0.src_i = iid then
        (G.reversed c1, LANE_THICKNESS * (r0.children_backwards : ℚ),
          LANE_THICKNESS * (r0.children_forwards : ℚ))
      else
        (c1, LANE_THICKNESS * (r0.children_forwards : ℚ),
          LANE_THICKNESS * (r0.children_backwards : ℚ))))
    (hshn : G.shift c1 ncw.2.1 = some pl_normal)
    (hshr : G.shift (G.reversed c1) ncw.2.2 = some pl_rev0) :
    processRoad G iid lines roads idx
      = .ok (some ([hit1, G.lastPt pl_normal, G.lastPt (G.reversed pl_rev0)],
          roads.set id { r0 with center_pts := ncw.1 }))
    ∧ G.plLength ncw.1 = G.plLength c1 := by
  constructor
  · rw [processRoad, hw1, hw2, hw3]
    dsimp only
    rw [hr]
    dsimp only
    rw [← hrc, hif]
    dsimp only
    rw [hpf]
    dsimp only
    rw [hibn]
    dsimp only
    rw [← hc1, ← hncw, hshn]
    dsimp only
    rw [hshr]
    rfl
  · rw [hncw]
    by_cases hs : r0.src_i = iid
    · rw [if_pos hs]
      exact hG.rev_len c1
    · rw [if_neg hs]

theorem c5_back_only {Pt PL Ang Ln : Type} (G : GeomOps Pt PL Ang Ln)
    (hG : GeomLaws G) (iid : ℕ) (lines : List (ℕ × Ang × PL × PL))
    (roads : List (Road PL)) (idx : ℤ) (id ida1 ida2 : ℕ)
    (angE anga1 anga2 : Ang)
    (fwd_pl back_pl adj_back_pl adj1r adj2n adj_fwd_pl : PL)
    (r0 : Road PL) (road_center c2 : PL) (ncw : PL × ℚ × ℚ)
    (hit2 t2 : Pt) (a2 : Ang) (pl_normal pl_rev0 : PL)
    (hw1 : wraparound_get lines idx = some (id, angE, fwd_pl, back_pl))
    (hw2 : wraparound_get lines (idx + 1) = some (ida1, anga1, adj_back_pl, adj1r))
    (hw3 : wraparound_get lines (idx - 1) = some (ida2, anga2, adj2n, adj_fwd_pl))
    (hr : roads.get? id = some r0)
    (hrc : road_center
      = (if r0.dst_i = iid then r0.center_pts else G.reversed r0.center_pts))
    (hifn : G.plIntersection fwd_pl adj_fwd_pl = none)
    (hib : G.plIntersection back_pl adj_back_pl = some (hit2, a2))
    (hpb : G.intersectionInfiniteLine road_center
        (G.lineNew hit2 (G.projectAway hit2 1 (G.rotateDegs a2 90))) = some t2)
    (hc2 : c2 = G.trimToPt road_center t2)
    (hncw : ncw = (if r0.src_i = iid then
        (G.reversed c2, LANE_THICKNESS * (r0.children_backwards : ℚ),
          LANE_THICKNESS * (r0.children_forwards : ℚ))
      else
        (c2, LANE_THICKNESS * (r0.children_forwards : ℚ),
          LANE_THICKNESS * (r0.children_backwards : ℚ))))
    (hshn : G.shift c2 ncw.2.1 = some pl_normal)
    (hshr : G.shift (G.reversed c2) ncw.2.2 = some pl_rev0) :
    processRoad G iid lines roads idx
      = .ok (some ([G.lastPt pl_normal, G.lastPt (G.reversed pl_rev0), hit2],
          roads.set id { r0 with center_pts := ncw.1 }))
    ∧ G.plLength ncw.1 = G.plLength c2 := by
  constructor
  · rw [processRoad, hw1, hw2, hw3]
    dsimp only
    rw [hr]
    dsimp only
    rw [← hrc, hifn]
    dsimp only
    rw [hib]
    dsimp only
    rw [hpb]
    dsimp only
    rw [← hc2, ← hncw, hshn]
    dsimp only
    rw [hshr]
    rfl
  · rw [hncw]
    by_cases hs : r0.src_i = iid
    · rw [if_pos hs]
      exact hG.rev_len c2
    · rw [if_neg hs]

theorem c5_neither {Pt PL Ang Ln : Type} (G : GeomOps Pt PL Ang Ln)
    (iid : ℕ) (lines : List (ℕ × Ang × PL × PL))
    (roads : List (Road PL)) (idx : ℤ) (id ida1 ida2 : ℕ)
    (angE anga1 anga2 : Ang)
    (fwd_pl back_pl adj_back_pl adj1r adj2n adj_fwd_pl : PL)
    (r0 : Road PL)
    (hw1 : wraparound_get lines idx = some (id, angE, fwd_pl, back_pl))
    (hw2 : wraparound_get lines (idx + 1) = some (ida1, anga1, adj_back_pl, adj1r))
    (hw3 : wraparound_get lines (idx - 1) = some (ida2, anga2, adj2n, adj_fwd_pl))
    (hr : roads.get? id = some r0)
    (hifn : G.plIntersection fwd_pl adj_fwd_pl = none)
    (hibn : G.plIntersection back_pl adj_back_pl = none) :
    processRoad G iid lines roads idx = .ok none := by
  rw [processRoad, hw1, hw2, hw3]
  dsimp only
  rw [hr]
  dsimp only
  rw [hifn]
  dsimp only
  rw [hibn]

theorem c5_solver_none {Pt PL Ang Ln : Type} (G : GeomOps Pt PL Ang Ln)
    (iid : ℕ) (lines : List (ℕ × Ang × PL × PL)) (k : ℕ) (rest : List ℕ)
    (acc : List Pt × List (Road PL))
    (h : processRoad G iid lines acc.2 (k : ℤ) = .ok none) :
    mnpAux G iid lines (k :: rest) acc = .ok (none, acc.2) := by
  rw [mnpAux, h]

theorem c5_fallback {Pt PL Ang Ln : Type} (G : GeomOps Pt PL Ang Ln)
    (i : Intersection) (roads roadsM : List (Road PL))
    (lines0 : List (ℕ × Ang × PL × PL)) (e1 e2 e3 : ℕ × Ang × PL × PL)
    (rest : List (ℕ × Ang × PL × PL))
    (hmap : mapExcept (buildLine G i roads) i.roads = .ok lines0)
    (hsort : sort_by_key (entryKey G) lines0 = e1 :: e2 :: e3 :: rest)
    (hmnp : make_new_polygon G roads i.id (e1 :: e2 :: e3 :: rest)
        = .ok (none, roadsM)) :
    initial_intersection_polygon G i roads
      = closeRing (fallbackPairs G i.id (e1 :: e2 :: e3 :: rest)).1 roadsM
          (Diag.couldntMakeNew i.id (e1 :: e2 :: e3 :: rest).length
            :: (fallbackPairs G i.id (e1 :: e2 :: e3 :: rest)).2) := by
  rw [initial_intersection_polygon, hmap]
  dsimp only
  rw [hsort]
  dsimp only
  rw [hmnp]

/-- C5: in the general corner solver, a road with both trim candidates is
trimmed to the shorter resulting length; a road with exactly one candidate
uses that one; a road with neither candidate makes the whole solver give up
(`none`, with no mutation from that road), and the caller then falls back to
the per-pair heuristic. -/
theorem C5_corner_solver :
    (∀ (Pt PL Ang Ln : Type) (G : GeomOps Pt PL Ang Ln)
      (hG : GeomLaws G) (iid : ℕ) (lines : List (ℕ × Ang × PL × PL))
      (roads : List (Road PL)) (idx : ℤ) (id ida1 ida2 : ℕ)
      (angE anga1 anga2 : Ang)
      (fwd_pl back_pl adj_back_pl adj1r adj2n adj_fwd_pl : PL)
      (r0 : Road PL) (road_center c1 c2 sc : PL) (ncw : PL × ℚ × ℚ)
      (hit1 hit2 t1 t2 : Pt) (a1 a2 : Ang) (pl_normal pl_rev0 : PL),
      wraparound_get lines idx = some (id, angE, fwd_pl, back_pl) →
      wraparound_get lines (idx + 1) = some (ida1, anga1, adj_back_pl, adj1r) →
      wraparound_get lines (idx - 1) = some (ida2, anga2, adj2n, adj_fwd_pl) →
      roads.get? id = some r0 →
      road_center
        = (if r0.dst_i = iid then r0.center_pts else G.reversed r0.center_pts) →
      G.plIntersection fwd_pl adj_fwd_pl = some (hit1, a1) →
      G.intersectionInfiniteLine road_center
        (G.lineNew hit1 (G.projectAway hit1 1 (G.rotateDegs a1 90))) = some t1 →
      G.plIntersection back_pl adj_back_pl = some (hit2, a2) →
      G.intersectionInfiniteLine road_center
        (G.lineNew hit2 (G.projectAway hit2 1 (G.rotateDegs a2 90))) = some t2 →
      c1 = G.trimToPt road_center t1 →
      c2 = G.trimToPt road_center t2 →
      sc = (if G.plLength c1 ≤ G.plLength c2 then c1 else c2) →
      ncw = (if r0.src_i = iid then
          (G.reversed sc, LANE_THICKNESS * (r0.children_backwards : ℚ),
            LANE_THICKNESS * (r0.children_forwards : ℚ))
        else
          (sc, LANE_THICKNESS * (r0.children_forwards : ℚ),
            LANE_THICKNESS * (r0.children_backwards : ℚ))) →
      G.shift sc ncw.2.1 = some pl_normal →
      G.shift (G.reversed sc) ncw.2.2 = some pl_rev0 →
      processRoad G iid lines roads idx
        = .ok (some ([hit1, G.lastPt pl_normal, G.lastPt (G.reversed pl_rev0), hit2],
            roads.set id { r0 with center_pts := ncw.1 }))
      ∧ G.plLength ncw.1 = min (G.plLength c1) (G.plLength c2))
    ∧ (∀ (Pt PL Ang Ln : Type) (G : GeomOps Pt PL Ang Ln)
      (hG : GeomLaws G) (iid : ℕ) (lines : List (ℕ × Ang × PL × PL))
      (roads : List (Road PL)) (idx : ℤ) (id ida1 ida2 : ℕ)
      (angE anga1 anga2 : Ang)
      (fwd_pl back_pl adj_back_pl adj1r adj2n adj_fwd_pl : PL)
      (r0 : Road PL) (road_center c1 : PL) (ncw : PL × ℚ × ℚ)
      (hit1 t1 : Pt) (a1 : Ang) (pl_normal pl_rev0 : PL),
      wraparound_get lines idx = some (id, angE, fwd_pl, back_pl) →
      wraparound_get lines (idx + 1) = some (ida1, anga1, adj_back_pl, adj1r) →
      wraparound_get lines (idx - 1) = some (ida2, anga2, adj2n, adj_fwd_pl) →
      roads.get? id = some r0 →
      road_center
        = (if r0.dst_i = iid then r0.center_pts else G.reversed r0.center_pts) →
      G.plIntersection fwd_pl adj_fwd_pl = some (hit1, a1) →
      G.intersectionInfiniteLine road_center
        (G.lineNew hit1 (G.projectAway hit1 1 (G.rotateDegs a1 90))) = some t1 →
      G.plIntersection back_pl adj_back_pl = none →
      c1 = G.trimToPt road_center t1 →
      ncw = (if r0.src_i = iid then
          (G.reversed c1, LANE_THICKNESS * (r0.children_backwards : ℚ),
            LANE_THICKNESS * (r0.children_forwards : ℚ))
        else
          (c1, LANE_THICKNESS * (r0.children_forwards : ℚ),
            LANE_THICKNESS * (r0.children_backwards : ℚ))) →
      G.shift c1 ncw.2.1 = some pl_normal →
      G.shift (G.reversed c1) ncw.2.2 = some pl_rev0 →
      processRoad G iid lines roads idx
        = .ok (some ([hit1, G.lastPt pl_normal, G.lastPt (G.reversed pl_rev0)],
            roads.set id { r0 with center_pts := ncw.1 }))
      ∧ G.plLength ncw.1 = G.plLength c1)
    ∧ (∀ (Pt PL Ang Ln : Type) (G : GeomOps Pt PL Ang Ln)
      (hG : GeomLaws G) (iid : ℕ) (lines : List (ℕ × Ang × PL × PL))
      (roads : List (Road PL)) (idx : ℤ) (id ida1 ida2 : ℕ)
      (angE anga1 anga2 : Ang)
      (fwd_pl back_pl adj_back_pl adj1r adj2n adj_fwd_pl : PL)
      (r0 : Road PL) (road_center c2 : PL) (ncw : PL × ℚ × ℚ)
      (hit2 t2 : Pt) (a2 : Ang) (pl_normal pl_rev0 : PL),
      wraparound_get lines idx = some (id, angE, fwd_pl, back_pl) →
      wraparound_get lines (idx + 1) = some (ida1, anga1, adj_back_pl, adj1r) →
      wraparound_get lines (idx - 1) = some (ida2, anga2, adj2n, adj_fwd_pl) →
      roads.get? id = some r0 →
      road_center
        = (if r0.dst_i = iid then r0.center_pts else G.reversed r0.center_pts) →
      G.plIntersection fwd_pl adj_fwd_pl = none →
      G.plIntersection back_pl adj_back_pl = some (hit2, a2) →
      G.intersectionInfiniteLine road_center
        (G.lineNew hit2 (G.projectAway hit2 1 (G.rotateDegs a2 90))) = some t2 →
      c2 = G.trimToPt road_center t2 →
      ncw = (if r0.src_i = iid then
          (G.reversed c2, LANE_THICKNESS * (r0.children_backwards : ℚ),
            LANE_THICKNESS * (r0.children_forwards : ℚ))
        else
          (c2, LANE_THICKNESS * (r0.children_forwards : ℚ),
            LANE_THICKNESS * (r0.children_backwards : ℚ))) →
      G.shift c2 ncw.2.1 = some pl_normal →
      G.shift (G.reversed c2) ncw.2.2 = some pl_rev0 →
      processRoad G iid lines roads idx
        = .ok (some ([G.lastPt pl_normal, G.lastPt (G.reversed pl_rev0), hit2],
            roads.set id { r0 with center_pts := ncw.1 }))
      ∧ G.plLength ncw.1 = G.plLength c2)
    ∧ (∀ (Pt PL Ang Ln : Type) (G : GeomOps Pt PL Ang Ln)
      (iid : ℕ) (lines : List (ℕ × Ang × PL × PL))
      (roads : List (Road PL)) (idx : ℤ) (id ida1 ida2 : ℕ)
      (angE anga1 anga2 : Ang)
      (fwd_pl back_pl adj_back_pl adj1r adj2n adj_fwd_pl : PL)
      (r0 : Road PL),
      wraparound_get lines idx = some (id, angE, fwd_pl, back_pl) →
      wraparound_get lines (idx + 1) = some (ida1, anga1, adj_back_pl, adj1r) →
      wraparound_get lines (idx - 1) = some (ida2, anga2, adj2n, adj_fwd_pl) →
      roads.get? id = some r0 →
      G.plIntersection fwd_pl adj_fwd_pl = none →
      G.plIntersection back_pl adj_back_pl = none →
      processRoad G iid lines roads idx = .ok none)
    ∧ (∀ (Pt PL Ang Ln : Type) (G : GeomOps Pt PL Ang Ln)
      (iid : ℕ) (lines : List (ℕ × Ang × PL × PL)) (k : ℕ) (rest : List ℕ)
      (acc : List Pt × List (Road PL)),
      processRoad G iid lines acc.2 (k : ℤ) = .ok none →
      mnpAux G iid lines (k :: rest) acc = .ok (none, acc.2))
    ∧ (∀ (Pt PL Ang Ln : Type) (G : GeomOps Pt PL Ang Ln)
      (i : Intersection) (roads roadsM : List (Road PL))
      (lines0 : List (ℕ × Ang × PL × PL)) (e1 e2 e3 : ℕ × Ang × PL × PL)
      (rest : List (ℕ × Ang × PL × PL)),
      mapExcept (buildLine G i roads) i.roads = .ok lines0 →
      sort_by_key (entryKey G) lines0 = e1 :: e2 :: e3 :: rest →
      make_new_polygon G roads i.id (e1 :: e2 :: e3 :: rest)
        = .ok (none, roadsM) →
      initial_intersection_polygon G i roads
        = closeRing (fallbackPairs G i.id (e1 :: e2 :: e3 :: rest)).1 roadsM
            (Diag.couldntMakeNew i.id (e1 :: e2 :: e3 :: rest).length
              :: (fallbackPairs G i.id (e1 :: e2 :: e3 :: rest)).2)) :=
  ⟨@c5_both, @c5_fwd_only, @c5_back_only, @c5_neither, @c5_solver_none,
    @c5_fallback⟩

/-- C5 (witness): the corner-solver theorem applied to the concrete
three-road scenario — road 0 has candidates of lengths 17 and 9 and is
trimmed to 9; road 1 has neither candidate, so the solver gives up and the
caller produces the fallback polygon. -/
theorem C5_corner_solver_witness :
    (processRoad (mkG pC5) 7 lC5 rC5 0
        = .ok (some ([41, 11, 12, 43], rC5.set 0 ⟨9, 7, (9, 1), 1, 2⟩))
      ∧ (mkG pC5).plLength ((9 : ℚ), (1 : ℕ))
          = min ((mkG pC5).plLength ((17 : ℚ), (1 : ℕ)))
              ((mkG pC5).plLength ((9 : ℚ), (1 : ℕ))))
    ∧ processRoad (mkG pC5) 7 lC5 rC5 1 = .ok none
    ∧ initial_intersection_polygon (mkG pC5) iC5 rC5
        = closeRing (fallbackPairs (mkG pC5) 7 lC5).1
            [⟨9, 7, (9, 1), 1, 2⟩, ⟨9, 7, (30, 2), 1, 2⟩, ⟨9, 7, (30, 3), 1, 2⟩]
            (Diag.couldntMakeNew 7 lC5.length :: (fallbackPairs (mkG pC5) 7 lC5).2) := by
  refine ⟨?_, ?_, ?_⟩
  · exact C5_corner_solver.1 ℕ (ℚ × ℕ) ℚ ℕ (mkG pC5) (mkG_laws pC5) 7 lC5 rC5 0
      0 1 2 1 2 3 (30, 11) (30, 12) (30, 21) (30, 22) (30, 31) (30, 32)
      ⟨9, 7, (30, 1), 1, 2⟩ (30, 1) (17, 1) (9, 1) (9, 1) ((9, 1), 5/2, 5)
      41 43 17 9 0 0 (9, 11) (9, 12)
      (by with_unfolding_all rfl) (by with_unfolding_all rfl)
      (by with_unfolding_all rfl) (by with_unfolding_all rfl)
      (by with_unfolding_all rfl) (by with_unfolding_all rfl)
      (by with_unfolding_all rfl) (by with_unfolding_all rfl)
      (by with_unfolding_all rfl) (by with_unfolding_all rfl)
      (by with_unfolding_all rfl) (by with_unfolding_all rfl)
      (by with_unfolding_all rfl) (by with_unfolding_all rfl)
      (by with_unfolding_all rfl)
  · exact C5_corner_solver.2.2.2.1 ℕ (ℚ × ℕ) ℚ ℕ (mkG pC5) 7 lC5 rC5 1
      1 2 0 2 3 1 (30, 21) (30, 22) (30, 31) (30, 32) (30, 11) (30, 12)
      ⟨9, 7, (30, 2), 1, 2⟩
      (by with_unfolding_all rfl) (by with_unfolding_all rfl)
      (by with_unfolding_all rfl) (by with_unfolding_all rfl)
      (by with_unfolding_all rfl) (by with_unfolding_all rfl)
  · exact C5_corner_solver.2.2.2.2.2 ℕ (ℚ × ℕ) ℚ ℕ (mkG pC5) iC5 rC5
      [⟨9, 7, (9, 1), 1, 2⟩, ⟨9, 7, (30, 2), 1, 2⟩, ⟨9, 7, (30, 3), 1, 2⟩]
      lC5 (0, 1, (30, 11), (30, 12)) (1, 2, (30, 21), (30, 22))
      (2, 3, (30, 31), (30, 32)) []
      (by with_unfolding_all rfl) (by with_unfolding_all rfl)
      (by with_unfolding_all rfl)

theorem c8_direct {Pt PL Ang Ln : Type} (G : GeomOps Pt PL Ang Ln) (iid : ℕ)
    (lines : List (ℕ × Ang × PL × PL)) (idx1 : ℤ)
    (e1 e2 : ℕ × Ang × PL × PL) (hit : Pt) (aa : Ang)
    (hw1 : wraparound_get lines idx1 = some e1)
    (hw2 : wraparound_get lines (idx1 + 1) = some e2)
    (hgt : 15 < |G.normalizedDegrees (G.opposite (G.lineAngle (G.lastLine e1.2.2.2)))
        - G.normalizedDegrees (G.lineAngle (G.lastLine e2.2.2.1))|)
    (hint : G.plIntersection e1.2.2.2 e2.2.2.1 = some (hit, aa)) :
    pairStep G iid lines idx1 = ([hit], []) := by
  rw [pairStep, hw1, hw2]
  dsimp only
  rw [if_pos hgt, hint]
  rfl

theorem c8_two_line {Pt PL Ang Ln : Type} (G : GeomOps Pt PL Ang Ln) (iid : ℕ)
    (lines : List (ℕ × Ang × PL × PL)) (idx1 : ℤ)
    (e1 e2 ep en : ℕ × Ang × PL × PL)
    (hw1 : wraparound_get lines idx1 = some e1)
    (hw2 : wraparound_get lines (idx1 + 1) = some e2)
    (hdirect : (if 15 < |G.normalizedDegrees (G.opposite (G.lineAngle
          (G.lastLine e1.2.2.2)))
        - G.normalizedDegrees (G.lineAngle (G.lastLine e2.2.2.1))| then
        (G.plIntersection e1.2.2.2 e2.2.2.1).map Prod.fst else none) = none)
    (hwp : wraparound_get lines (idx1 - 1) = some ep)
    (hwn : wraparound_get lines (idx1 + 2) = some en) :
    pairStep G iid lines idx1 =
      ([(match G.intersectionInfiniteLine e1.2.2.2 (G.lastLine ep.2.2.2) with
          | some hit => (hit, true)
          | none => (G.lastPt e1.2.2.2, false)).1,
        (match G.intersectionInfiniteLine e2.2.2.1 (G.lastLine en.2.2.1) with
          | some hit => (hit, true)
          | none => (G.lastPt e2.2.2.1, false)).1],
        if (match G.intersectionInfiniteLine e1.2.2.2 (G.lastLine ep.2.2.2) with
            | some hit => (hit, true)
            | none => (G.lastPt e1.2.2.2, false)).2
          && (match G.intersectionInfiniteLine e2.2.2.1 (G.lastLine en.2.2.1) with
            | some hit => (hit, true)
            | none => (G.lastPt e2.2.2.1, false)).2 then []
        else [Diag.noHit e1.1 e2.1 iid lines.length]) := by
  rw [pairStep, hw1, hw2]
  dsimp only
  rw [hdirect]
  dsimp only
  rw [hwp, hwn]

theorem c8_no_trim {Pt PL Ang Ln : Type} (G : GeomOps Pt PL Ang Ln)
    (i : Intersection) (roads roadsM : List (Road PL))
    (lines0 : List (ℕ × Ang × PL × PL)) (e1 e2 e3 : ℕ × Ang × PL × PL)
    (rest : List (ℕ × Ang × PL × PL)) (p : Pt) (ps : List Pt)
    (hmap : mapExcept (buildLine G i roads) i.roads = .ok lines0)
    (hsort : sort_by_key (entryKey G) lines0 = e1 :: e2 :: e3 :: rest)
    (hmnp : make_new_polygon G roads i.id (e1 :: e2 :: e3 :: rest)
        = .ok (none, roadsM))
    (hfb : (fallbackPairs G i.id (e1 :: e2 :: e3 :: rest)).1 = p :: ps) :
    initial_intersection_polygon G i roads
      = .ok ((p :: ps) ++ [p], roadsM,
          Diag.couldntMakeNew i.id (e1 :: e2 :: e3 :: rest).length
            :: (fallbackPairs G i.id (e1 :: e2 :: e3 :: rest)).2) := by
  rw [c5_fallback G i roads roadsM lines0 e1 e2 e3 rest hmap hsort hmnp, hfb,
    closeRing_cons]

/-- C8 (amended): in the per-pair fallback, when the angle difference exceeds
15 degrees and the two borders intersect, that single point is used;
otherwise two infinite-line intersections are computed — the first border
against the *previous* road's far border and the second border against the
road after the pair's far border — using the border's last point plus a
warning when a point is not found; and the fallback path itself never
touches the road collection, which stays exactly as the failed solver left
it. -/
theorem C8_fallback_pairs :
    (∀ (Pt PL Ang Ln : Type) (G : GeomOps Pt PL Ang Ln) (iid : ℕ)
      (lines : List (ℕ × Ang × PL × PL)) (idx1 : ℤ)
      (e1 e2 : ℕ × Ang × PL × PL) (hit : Pt) (aa : Ang),
      wraparound_get lines idx1 = some e1 →
      wraparound_get lines (idx1 + 1) = some e2 →
      15 < |G.normalizedDegrees (G.opposite (G.lineAngle (G.lastLine e1.2.2.2)))
        - G.normalizedDegrees (G.lineAngle (G.lastLine e2.2.2.1))| →
      G.plIntersection e1.2.2.2 e2.2.2.1 = some (hit, aa) →
      pairStep G iid lines idx1 = ([hit], []))
    ∧ (∀ (Pt PL Ang Ln : Type) (G : GeomOps Pt PL Ang Ln) (iid : ℕ)
      (lines : List (ℕ × Ang × PL × PL)) (idx1 : ℤ)
      (e1 e2 ep en : ℕ × Ang × PL × PL),
      wraparound_get lines idx1 = some e1 →
      wraparound_get lines (idx1 + 1) = some e2 →
      (if 15 < |G.normalizedDegrees (G.opposite (G.lineAngle
            (G.lastLine e1.2.2.2)))
          - G.normalizedDegrees (G.lineAngle (G.lastLine e2.2.2.1))| then
          (G.plIntersection e1.2.2.2 e2.2.2.1).map Prod.fst else none) = none →
      wraparound_get lines (idx1 - 1) = some ep →
      wraparound_get lines (idx1 + 2) = some en →
      pairStep G iid lines idx1 =
        ([(match G.intersectionInfiniteLine e1.2.2.2 (G.lastLine ep.2.2.2) with
            | some hit => (hit, true)
            | none => (G.lastPt e1.2.2.2, false)).1,
          (match G.intersectionInfiniteLine e2.2.2.1 (G.lastLine en.2.2.1) with
            | some hit => (hit, true)
            | none => (G.lastPt e2.2.2.1, false)).1],
          if (match G.intersectionInfiniteLine e1.2.2.2 (G.lastLine ep.2.2.2) with
              | some hit => (hit, true)
              | none => (G.lastPt e1.2.2.2, false)).2
            && (match G.intersectionInfiniteLine e2.2.2.1 (G.lastLine en.2.2.1) with
              | some hit => (hit, true)
              | none => (G.lastPt e2.2.2.1, false)).2 then []
          else [Diag.noHit e1.1 e2.1 iid lines.length]))
    ∧ (∀ (Pt PL Ang Ln : Type) (G : GeomOps Pt PL Ang Ln)
      (i : Intersection) (roads roadsM : List (Road PL))
      (lines0 : List (ℕ × Ang × PL × PL)) (e1 e2 e3 : ℕ × Ang × PL × PL)
      (rest : List (ℕ × Ang × PL × PL)) (p : Pt) (ps : List Pt),
      mapExcept (buildLine G i roads) i.roads = .ok lines0 →
      sort_by_key (entryKey G) lines0 = e1 :: e2 :: e3 :: rest →
      make_new_polygon G roads i.id (e1 :: e2 :: e3 :: rest)
        = .ok (none, roadsM) →
      (fallbackPairs G i.id (e1 :: e2 :: e3 :: rest)).1 = p :: ps →
      initial_intersection_polygon G i roads
        = .ok ((p :: ps) ++ [p], roadsM,
            Diag.couldntMakeNew i.id (e1 :: e2 :: e3 :: rest).length
              :: (fallbackPairs G i.id (e1 :: e2 :: e3 :: rest)).2)) :=
  ⟨@c8_direct, @c8_two_line, @c8_no_trim⟩

/-- C8 (counterexample): with four roads, the source intersects the first
border with the *previous* road's border and the second border with the
road-after-the-pair's border; the claim states the opposite assignment, and
on a geometry where only the source's assignment finds hits the two
computations disagree. -/
theorem C8_counterexample :
    pairStep (mkG pC8) 7 lC8 0 = ([77, 88], [])
    ∧ pairStepClaimed (mkG pC8) 7 lC8 0 = ([12, 21], [Diag.noHit 0 1 7 4])
    ∧ ([77, 88] : List ℕ) ≠ [12, 21] :=
  ⟨by with_unfolding_all rfl, by with_unfolding_all rfl, by decide⟩

/-- C8 (witness): the fallback theorem applied to the concrete three-road
scenario of the corner-solver failure — a direct hit for the first pair, the
two-line fallback with warnings for the second pair, and the whole run
returning the solver's road collection untouched. -/
theorem C8_fallback_pairs_witness :
    pairStep (mkG pC5) 7 lC5 0 = ([43], [])
    ∧ pairStep (mkG pC5) 7 lC5 1 = ([22, 31], [Diag.noHit 1 2 7 3])
    ∧ initial_intersection_polygon (mkG pC5) iC5 rC5
        = .ok ([43, 22, 31, 32, 11, 43],
            [⟨9, 7, (9, 1), 1, 2⟩, ⟨9, 7, (30, 2), 1, 2⟩, ⟨9, 7, (30, 3), 1, 2⟩],
            Diag.couldntMakeNew 7 3 :: (fallbackPairs (mkG pC5) 7 lC5).2) := by
  refine ⟨?_, ?_, ?_⟩
  · exact C8_fallback_pairs.1 ℕ (ℚ × ℕ) ℚ ℕ (mkG pC5) 7 lC5 0
      (0, 1, (30, 11), (30, 12)) (1, 2, (30, 21), (30, 22)) 43 0
      (by with_unfolding_all rfl) (by with_unfolding_all rfl)
      (by with_unfolding_all decide) (by with_unfolding_all rfl)
  · exact C8_fallback_pairs.2.1 ℕ (ℚ × ℕ) ℚ ℕ (mkG pC5) 7 lC5 1
      (1, 2, (30, 21), (30, 22)) (2, 3, (30, 31), (30, 32))
      (0, 1, (30, 11), (30, 12)) (0, 1, (30, 11), (30, 12))
      (by with_unfolding_all rfl) (by with_unfolding_all rfl)
      (by with_unfolding_all rfl) (by with_unfolding_all rfl)
      (by with_unfolding_all rfl)
  · exact C8_fallback_pairs.2.2 ℕ (ℚ × ℕ) ℚ ℕ (mkG pC5) iC5 rC5
      [⟨9, 7, (9, 1), 1, 2⟩, ⟨9, 7, (30, 2), 1, 2⟩, ⟨9, 7, (30, 3), 1, 2⟩]
      lC5 (0, 1, (30, 11), (30, 12)) (1, 2, (30, 21), (30, 22))
      (2, 3, (30, 31), (30, 32)) [] 43 [22, 31, 32, 11]
      (by with_unfolding_all rfl) (by with_unfolding_all rfl)
      (by with_unfolding_all rfl) (by with_unfolding_all rfl)

/-- C1: at a degree-3 intersection whose incident roads all end at it, with a
geometry where the forward corner of the first road is found but the
perpendicular through that corner misses the road's centerline, the function
panics on the `unwrap` inside the corner solver instead of completing with a
polygon. -/
theorem C1_unwrap_panic :
    rC1.map (fun r => r.dst_i) = [7, 7, 7]
    ∧ iC1 = ⟨7, [0, 1, 2]⟩
    ∧ initial_intersection_polygon (mkG pC1) iC1 rC1
        = .error "unwrap failed: perpendicular does not hit the road center" :=
  ⟨by with_unfolding_all rfl, rfl, by with_unfolding_all rfl⟩

/-- C3 (counterexample): the borders are long enough to walk backward twice
the half-length (the walks succeed), yet because the centerline itself is
only 1 long, its length does not decrease by exactly twice the half-length —
it is clamped to zero instead. -/
theorem C3_counterexample :
    buildLine (mkG pC3x) iC3 rC3x 0 = .ok (0, 1, (51, 11), (51, 12))
    ∧ (mkG pC3x).safeDistAlong ((mkG pC3x).reversed (51, 11))
        (DEGENERATE_INTERSECTION_HALF_LENGTH * 2) = some (111, 0)
    ∧ (mkG pC3x).safeDistAlong ((mkG pC3x).reversed (51, 12))
        (DEGENERATE_INTERSECTION_HALF_LENGTH * 2) = some (112, 0)
    ∧ initial_intersection_polygon (mkG pC3x) iC3 rC3x
        = .ok ([111, 112, 12, 11, 111], [⟨9, 7, (0, 0), 1, 2⟩], [])
    ∧ (mkG pC3x).plLength ((0 : ℚ), (0 : ℕ))
        ≠ (mkG pC3x).plLength ((1 : ℚ), (1 : ℕ))
          - DEGENERATE_INTERSECTION_HALF_LENGTH * 2 :=
  ⟨by with_unfolding_all rfl, by with_unfolding_all rfl,
    by with_unfolding_all rfl, by with_unfolding_all rfl,
    by with_unfolding_all decide⟩

/-- C3 (witness): the amended dead-end theorem applied to a road of length
20, trimmed to length 10. -/
theorem C3_dead_end_trim_witness :
    ∃ r1 : Road (ℚ × ℕ),
      initial_intersection_polygon (mkG defaultParams) iC3 rC3 =
        .ok ([111, 112, 12, 11, 111], rC3.set 0 r1, [])
      ∧ (mkG defaultParams).plLength r1.center_pts
          = (mkG defaultParams).plLength ((20 : ℚ), (1 : ℕ))
            - DEGENERATE_INTERSECTION_HALF_LENGTH * 2 :=
  C3_dead_end_trim (mkG defaultParams) (mkG_laws defaultParams) iC3 rC3 0
    1 (20, 11) (20, 12) ⟨9, 7, (20, 1), 1, 2⟩ (111, 0) (112, 0)
    rfl (by with_unfolding_all rfl) rfl
    (by with_unfolding_all rfl) (by with_unfolding_all rfl)
    (by with_unfolding_all decide)

/-- C4 (counterexample): all four offset borders are at least the
half-length long, yet because each centerline is only 1 long the trims do
not shrink the centerlines by exactly the half-length — they are clamped to
zero instead. -/
theorem C4_counterexample :
    buildLine (mkG pC4x) iC4 rC4x 0 = .ok (0, 1, (51, 11), (51, 12))
    ∧ buildLine (mkG pC4x) iC4 rC4x 1 = .ok (1, 2, (51, 21), (51, 22))
    ∧ DEGENERATE_INTERSECTION_HALF_LENGTH ≤ (mkG pC4x).plLength ((51 : ℚ), (11 : ℕ))
    ∧ initial_intersection_polygon (mkG pC4x) iC4 rC4x
        = .ok ([111, 122, 121, 112, 111],
            [⟨9, 7, (0, 0), 1, 2⟩, ⟨9, 7, (0, 0), 1, 2⟩], [])
    ∧ (mkG pC4x).plLength ((0 : ℚ), (0 : ℕ))
        ≠ (mkG pC4x).plLength ((1 : ℚ), (1 : ℕ))
          - DEGENERATE_INTERSECTION_HALF_LENGTH :=
  ⟨by with_unfolding_all rfl, by with_unfolding_all rfl,
    by with_unfolding_all decide, by with_unfolding_all rfl,
    by with_unfolding_all decide⟩

/-- C4 (witness): the amended degree-2 theorem applied to two roads of
length 20, both trimmed to length 15. -/
theorem C4_degenerate_two_trim_witness :
    ∃ (t : List ℕ) (r1' r2' : Road (ℚ × ℕ)),
      dedupBy (mkG defaultParams).ptEq
          [((mkG defaultParams).distAlong ((mkG defaultParams).reversed (20, 11))
              DEGENERATE_INTERSECTION_HALF_LENGTH).1,
           ((mkG defaultParams).distAlong ((mkG defaultParams).reversed (20, 22))
              DEGENERATE_INTERSECTION_HALF_LENGTH).1,
           ((mkG defaultParams).distAlong ((mkG defaultParams).reversed (20, 21))
              DEGENERATE_INTERSECTION_HALF_LENGTH).1,
           ((mkG defaultParams).distAlong ((mkG defaultParams).reversed (20, 12))
              DEGENERATE_INTERSECTION_HALF_LENGTH).1]
        = ((mkG defaultParams).distAlong ((mkG defaultParams).reversed (20, 11))
            DEGENERATE_INTERSECTION_HALF_LENGTH).1 :: t
      ∧ initial_intersection_polygon (mkG defaultParams) iC4 rC4
          = .ok ((((mkG defaultParams).distAlong
                ((mkG defaultParams).reversed (20, 11))
                DEGENERATE_INTERSECTION_HALF_LENGTH).1 :: t)
              ++ [((mkG defaultParams).distAlong
                ((mkG defaultParams).reversed (20, 11))
                DEGENERATE_INTERSECTION_HALF_LENGTH).1],
              (rC4.set 0 r1').set 1 r2', [])
      ∧ (mkG defaultParams).plLength r1'.center_pts
          = (mkG defaultParams).plLength ((20 : ℚ), (1 : ℕ))
            - DEGENERATE_INTERSECTION_HALF_LENGTH
      ∧ (mkG defaultParams).plLength r2'.center_pts
          = (mkG defaultParams).plLength ((20 : ℚ), (2 : ℕ))
            - DEGENERATE_INTERSECTION_HALF_LENGTH :=
  C4_degenerate_two_trim (mkG defaultParams) (mkG_laws defaultParams) iC4 rC4
    0 1 1 2 (20, 11) (20, 12) (20, 21) (20, 22)
    ⟨9, 7, (20, 1), 1, 2⟩ ⟨9, 7, (20, 2), 1, 2⟩
    rfl (by with_unfolding_all rfl) (by with_unfolding_all rfl)
    (by with_unfolding_all decide) (by decide) rfl rfl
    (by with_unfolding_all decide) (by with_unfolding_all decide)
    (by with_unfolding_all decide) (by with_unfolding_all decide)
    (by with_unfolding_all decide) (by with_unfolding_all decide)

/-- C6 (witness): the amended theorem applied to a road recording neither
endpoint at the intersection. -/
theorem C6_missing_endpoint_panics_witness :
    ∃ e, initial_intersection_polygon (mkG defaultParams) iC6 rC6b = .error e :=
  C6_missing_endpoint_panics (mkG defaultParams) iC6 rC6b 0 ⟨1, 2, (1, 1), 1, 2⟩
    (by decide) rfl (by decide) (by decide)

/-- C7 (witness): the degraded dead-end theorem applied to a road of length
1, whose borders cannot be walked back 10. -/
theorem C7_degraded_dead_end_witness :
    initial_intersection_polygon (mkG defaultParams) iC7 rC7
      = .ok ([11, 12, 11], rC7, [Diag.deadEndTooShort 7 0]) :=
  C7_degraded_dead_end (mkG defaultParams) iC7 rC7 0 1 (1, 11) (1, 12)
    rfl (by with_unfolding_all rfl) (Or.inl (by with_unfolding_all rfl))

theorem closeRing_roads {roads : List (Road PL)} {l : List Pt} {ds : List Diag}
    {out : List Pt × List (Road PL) × List Diag}
    (h : closeRing l roads ds = .ok out) : out.2.1 = roads := by
  rcases l with _ | ⟨e0, rest⟩
  · cases h
  · rw [closeRing] at h
    cases h
    rfl

theorem buildLine_ok_id {G : GeomOps Pt PL Ang Ln} {i : Intersection}
    {roads : List (Road PL)} {id : ℕ} {e : ℕ × Ang × PL × PL}
    (h : buildLine G i roads id = .ok e) : e.1 = id := by
  rw [buildLine] at h
  rcases hr : roads.get? id with _ | r
  · rw [hr] at h; cases h
  · rw [hr] at h
    dsimp only at h
    by_cases hs : r.src_i = i.id
    · rw [if_pos hs] at h
      dsimp only at h
      rcases h1 : G.shift (G.reversed r.center_pts)
          (LANE_THICKNESS * (r.children_backwards : ℚ)) with _ | n
      · rw [h1] at h; cases h
      · rw [h1] at h
        rcases h2 : G.shift (G.reversed (G.reversed r.center_pts))
            (LANE_THICKNESS * (r.children_forwards : ℚ)) with _ | v
        · rw [h2] at h; cases h
        · rw [h2] at h
          cases h
          rfl
    · rw [if_neg hs] at h
      by_cases hd : r.dst_i = i.id
      · rw [if_pos hd] at h
        dsimp only at h
        rcases h1 : G.shift r.center_pts
            (LANE_THICKNESS * (r.children_forwards : ℚ)) with _ | n
        · rw [h1] at h; cases h
        · rw [h1] at h
          rcases h2 : G.shift (G.reversed r.center_pts)
              (LANE_THICKNESS * (r.children_backwards : ℚ)) with _ | v
          · rw [h2] at h; cases h
          · rw [h2] at h
            cases h
            rfl
      · rw [if_neg hd] at h
        cases h

theorem slice_le {G : GeomOps Pt PL Ang Ln} (hG : GeomLaws G) (pl : PL)
    (a b : ℚ) : G.plLength (G.slice pl a b).1 ≤ G.plLength pl := by
  rw [hG.slice_len]
  have h0 := hG.len_nonneg pl
  have h1 : min b (G.plLength pl) ≤ G.plLength pl := min_le_right _ _
  have h2 : (0:ℚ) ≤ max 0 (min a (G.plLength pl)) := le_max_left _ _
  apply max_le h0
  linarith

theorem roadsFrame_refl (G : GeomOps Pt PL Ang Ln) (ids : List ℕ)
    (roads : List (Road PL)) : roadsFrame G ids roads roads := by
  refine ⟨rfl, fun j _ => rfl, fun j r0 r1 h0 h1 => ?_⟩
  rw [h0] at h1
  cases h1
  exact ⟨rfl, rfl, rfl, rfl, le_refl _⟩

theorem roadsFrame_set {G : GeomOps Pt PL Ang Ln} {ids : List ℕ}
    {roads0 roads : List (Road PL)} (hF : roadsFrame G ids roads0 roads)
    {id : ℕ} {r r1 : Road PL} (hid : id ∈ ids) (hr : roads.get? id = some r)
    (hsrc : r1.src_i = r.src_i) (hdst : r1.dst_i = r.dst_i)
    (hcf : r1.children_forwards = r.children_forwards)
    (hcb : r1.children_backwards = r.children_backwards)
    (hlen : G.plLength r1.center_pts ≤ G.plLength r.center_pts) :
    roadsFrame G ids roads0 (roads.set id r1) := by
  obtain ⟨hL, hout, hfields⟩ := hF
  have hlt : id < roads.length := by
    rcases List.get?_eq_some.mp hr with ⟨hw, _⟩
    exact hw
  refine ⟨by rw [List.length_set, hL], ?_, ?_⟩
  · intro j hj
    have hne : id ≠ j := fun he => hj (he ▸ hid)
    rw [List.get?_set_ne _ _ hne]
    exact hout j hj
  · intro j r0 r1q h0 h1
    by_cases hj : id = j
    · subst hj
      rw [List.get?_set_eq_of_lt _ hlt] at h1
      cases h1
      rcases hfields id r0 r h0 hr with ⟨f1, f2, f3, f4, f5⟩
      exact ⟨hsrc.trans f1, hdst.trans f2, hcf.trans f3, hcb.trans f4,
        le_trans hlen f5⟩
    · rw [List.get?_set_ne _ _ hj] at h1
      exact hfields j r0 r1q h0 h1

theorem trimDeadEnd_frame {G : GeomOps Pt PL Ang Ln} (hG : GeomLaws G)
    {ids : List ℕ} {roads0 roads : List (Road PL)} (iid id : ℕ)
    (hF : roadsFrame G ids roads0 roads) (hid : id ∈ ids) :
    roadsFrame G ids roads0 (trimDeadEnd G iid roads id) := by
  rw [trimDeadEnd]
  rcases hr : roads.get? id with _ | r
  · exact hF
  · dsimp only
    by_cases hs : r.src_i = iid
    · rw [if_pos hs]
      exact roadsFrame_set hF hid hr rfl rfl rfl rfl (slice_le hG _ _ _)
    · rw [if_neg hs]
      exact roadsFrame_set hF hid hr rfl rfl rfl rfl (slice_le hG _ _ _)

theorem trimDegenerate_frame {G : GeomOps Pt PL Ang Ln} (hG : GeomLaws G)
    {ids : List ℕ} {roads0 roads : List (Road PL)} (iid id : ℕ)
    (hF : roadsFrame G ids roads0 roads) (hid : id ∈ ids) :
    roadsFrame G ids roads0 (trimDegenerate G iid roads id) := by
  rw [trimDegenerate]
  rcases hr : roads.get? id with _ | r
  · exact hF
  · dsimp only
    by_cases hs : r.src_i = iid
    · rw [if_pos hs]
      exact roadsFrame_set hF hid hr rfl rfl rfl rfl (slice_le hG _ _ _)
    · rw [if_neg hs]
      exact roadsFrame_set hF hid hr rfl rfl rfl rfl (slice_le hG _ _ _)

theorem trim_center_le {G : GeomOps Pt PL Ang Ln} (hG : GeomLaws G)
    (r0 : Road PL) (iid : ℕ) (t : Pt) :
    G.plLength (G.trimToPt
        (if r0.dst_i = iid then r0.center_pts else G.reversed r0.center_pts) t)
      ≤ G.plLength r0.center_pts := by
  refine le_trans (hG.trim_le _ t) ?_
  by_cases hd : r0.dst_i = iid
  · rw [if_pos hd]
  · rw [if_neg hd, hG.rev_len]

theorem ncw_fst_le {G : GeomOps Pt PL Ang Ln} (hG : GeomLaws G) (r0 : Road PL)
    (iid : ℕ) (sc : PL) (hsc : G.plLength sc ≤ G.plLength r0.center_pts)
    (w1 w2 w3 w4 : ℚ) :
    G.plLength ((if r0.src_i = iid then (G.reversed sc, w1, w2)
      else (sc, w3, w4)) : PL × ℚ × ℚ).1 ≤ G.plLength r0.center_pts := by
  by_cases hs : r0.src_i = iid
  · rw [if_pos hs]
    dsimp only
    rw [hG.rev_len]
    exact hsc
  · rw [if_neg hs]
    exact hsc

theorem processRoad_frame {G : GeomOps Pt PL Ang Ln} (hG : GeomLaws G)
    {ids : List ℕ} {iid : ℕ} {lines : List (ℕ × Ang × PL × PL)}
    {roads0 roads : List (Road PL)} {idx : ℤ} {pts : List Pt}
    {roads1 : List (Road PL)}
    (hids : ∀ e ∈ lines, e.1 ∈ ids)
    (hF : roadsFrame G ids roads0 roads)
    (h : processRoad G iid lines roads idx = .ok (some (pts, roads1))) :
    roadsFrame G ids roads0 roads1 ∧ pts ≠ [] := by
  rw [processRoad] at h
  rcases hw1 : wraparound_get lines idx with _ | e
  all_goals rcases hw2 : wraparound_get lines (idx + 1) with _ | adj1
  all_goals rcases hw3 : wraparound_get lines (idx - 1) with _ | adj2
  all_goals rw [hw1, hw2, hw3] at h
  case none.none.none | none.none.some | none.some.none | none.some.some
    | some.none.none | some.none.some | some.some.none => cases h
  dsimp only at h
  have hmem : e.1 ∈ ids := hids e (wraparound_get_mem hw1)
  rcases hr : roads.get? e.1 with _ | r0
  · rw [hr] at h; cases h
  rw [hr] at h
  dsimp only at h
  rcases hpf : G.plIntersection e.2.2.1 adj2.2.2.2 with _ | hitang1
  · rw [hpf] at h
    dsimp only at h
    rcases hpb : G.plIntersection e.2.2.2 adj1.2.2.1 with _ | hitang2
    · rw [hpb] at h
      dsimp only at h
      cases h
    · rw [hpb] at h
      dsimp only at h
      rcases hil2 : G.intersectionInfiniteLine
          (if r0.dst_i = iid then r0.center_pts else G.reversed r0.center_pts)
          (G.lineNew hitang2.1
            (G.projectAway hitang2.1 1 (G.rotateDegs hitang2.2 90)))
        with _ | t2
      · rw [hil2] at h; cases h
      rw [hil2] at h
      dsimp only at h
      rcases hs1 : G.shift (G.trimToPt
          (if r0.dst_i = iid then r0.center_pts else G.reversed r0.center_pts) t2)
          ((if r0.src_i = iid then
            (G.reversed (G.trimToPt (if r0.dst_i = iid then r0.center_pts
              else G.reversed r0.center_pts) t2),
              LANE_THICKNESS * (r0.children_backwards : ℚ),
              LANE_THICKNESS * (r0.children_forwards : ℚ))
          else
            (G.trimToPt (if r0.dst_i = iid then r0.center_pts
              else G.reversed r0.center_pts) t2,
              LANE_THICKNESS * (r0.children_forwards : ℚ),
              LANE_THICKNESS * (r0.children_backwards : ℚ))) : PL × ℚ × ℚ).2.1
        with _ | npl
      · rw [hs1] at h; cases h
      rw [hs1] at h
      dsimp only at h
      rcases hs2 : G.shift (G.reversed (G.trimToPt
          (if r0.dst_i = iid then r0.center_pts else G.reversed r0.center_pts) t2))
          ((if r0.src_i = iid then
            (G.reversed (G.trimToPt (if r0.dst_i = iid then r0.center_pts
              else G.reversed r0.center_pts) t2),
              LANE_THICKNESS * (r0.children_backwards : ℚ),
              LANE_THICKNESS * (r0.children_forwards : ℚ))
          else
            (G.trimToPt (if r0.dst_i = iid then r0.center_pts
              else G.reversed r0.center_pts) t2,
              LANE_THICKNESS * (r0.children_forwards : ℚ),
              LANE_THICKNESS * (r0.children_backwards : ℚ))) : PL × ℚ × ℚ).2.2
        with _ | vpl
      · rw [hs2] at h; cases h
      rw [hs2] at h
      dsimp only at h
      rw [Except.ok.injEq, Option.some.injEq, Prod.mk.injEq] at h
      obtain ⟨hpts, hroads⟩ := h
      subst hpts
      subst hroads
      constructor
      · exact roadsFrame_set hF hmem hr rfl rfl rfl rfl
          (ncw_fst_le hG r0 iid _ (trim_center_le hG r0 iid t2) _ _ _ _)
      · simp
  · rw [hpf] at h
    dsimp only at h
    rcases hil1 : G.intersectionInfiniteLine
        (if r0.dst_i = iid then r0.center_pts else G.reversed r0.center_pts)
        (G.lineNew hitang1.1
          (G.projectAway hitang1.1 1 (G.rotateDegs hitang1.2 90)))
      with _ | t1
    · rw [hil1] at h; cases h
    rw [hil1] at h
    dsimp only at h
    rcases hpb : G.plIntersection e.2.2.2 adj1.2.2.1 with _ | hitang2
    · rw [hpb] at h
      dsimp only at h
      rcases hs1 : G.shift (G.trimToPt
          (if r0.dst_i = iid then r0.center_pts else G.reversed r0.center_pts) t1)
          ((if r0.src_i = iid then
            (G.reversed (G.trimToPt (if r0.dst_i = iid then r0.center_pts
              else G.reversed r0.center_pts) t1),
              LANE_THICKNESS * (r0.children_backwards : ℚ),
              LANE_THICKNESS * (r0.children_forwards : ℚ))
          else
            (G.trimToPt (if r0.dst_i = iid then r0.center_pts
              else G.reversed r0.center_pts) t1,
              LANE_THICKNESS * (r0.children_forwards : ℚ),
              LANE_THICKNESS * (r0.children_backwards : ℚ))) : PL × ℚ × ℚ).2.1
        with _ | npl
      · rw [hs1] at h; cases h
      rw [hs1] at h
      dsimp only at h
      rcases hs2 : G.shift (G.reversed (G.trimToPt
          (if r0.dst_i = iid then r0.center_pts else G.reversed r0.center_pts) t1))
          ((if r0.src_i = iid then
            (G.reversed (G.trimToPt (if r0.dst_i = iid then r0.center_pts
              else G.reversed r0.center_pts) t1),
              LANE_THICKNESS * (r0.children_backwards : ℚ),
              LANE_THICKNESS * (r0.children_forwards : ℚ))
          else
            (G.trimToPt (if r0.dst_i = iid then r0.center_pts
              else G.reversed r0.center_pts) t1,
              LANE_THICKNESS * (r0.children_forwards : ℚ),
              LANE_THICKNESS * (r0.children_backwards : ℚ))) : PL × ℚ × ℚ).2.2
        with _ | vpl
      · rw [hs2] at h; cases h
      rw [hs2] at h
      dsimp only at h
      rw [Except.ok.injEq, Option.some.injEq, Prod.mk.injEq] at h
      obtain ⟨hpts, hroads⟩ := h
      subst hpts
      subst hroads
      constructor
      · exact roadsFrame_set hF hmem hr rfl rfl rfl rfl
          (ncw_fst_le hG r0 iid _ (trim_center_le hG r0 iid t1) _ _ _ _)
      · simp
    · rw [hpb] at h
      dsimp only at h
      rcases hil2 : G.intersectionInfiniteLine
          (if r0.dst_i = iid then r0.center_pts else G.reversed r0.center_pts)
          (G.lineNew hitang2.1
            (G.projectAway hitang2.1 1 (G.rotateDegs hitang2.2 90)))
        with _ | t2
      · rw [hil2] at h; cases h
      rw [hil2] at h
      dsimp only at h
      have hscle : G.plLength
          (if G.plLength (G.trimToPt (if r0.dst_i = iid then r0.center_pts
                else G.reversed r0.center_pts) t1)
              ≤ G.plLength (G.trimToPt (if r0.dst_i = iid then r0.center_pts
                else G.reversed r0.center_pts) t2) then
            G.trimToPt (if r0.dst_i = iid then r0.center_pts
              else G.reversed r0.center_pts) t1
          else
            G.trimToPt (if r0.dst_i = iid then r0.center_pts
              else G.reversed r0.center_pts) t2)
          ≤ G.plLength r0.center_pts := by
        by_cases hle : G.plLength (G.trimToPt (if r0.dst_i = iid then
              r0.center_pts else G.reversed r0.center_pts) t1)
            ≤ G.plLength (G.trimToPt (if r0.dst_i = iid then r0.center_pts
              else G.reversed r0.center_pts) t2)
        · rw [if_pos hle]
          exact trim_center_le hG r0 iid t1
        · rw [if_neg hle]
          exact trim_center_le hG r0 iid t2
      rcases hs1 : G.shift (if G.plLength (G.trimToPt (if r0.dst_i = iid then
              r0.center_pts else G.reversed r0.center_pts) t1)
            ≤ G.plLength (G.trimToPt (if r0.dst_i = iid then r0.center_pts
              else G.reversed r0.center_pts) t2) then
            G.trimToPt (if r0.dst_i = iid then r0.center_pts
              else G.reversed r0.center_pts) t1
          else
            G.trimToPt (if r0.dst_i = iid then r0.center_pts
              else G.reversed r0.center_pts) t2)
          ((if r0.src_i = iid then
            (G.reversed (if G.plLength (G.trimToPt (if r0.dst_i = iid then
                  r0.center_pts else G.reversed r0.center_pts) t1)
                ≤ G.plLength (G.trimToPt (if r0.dst_i = iid then r0.center_pts
                  else G.reversed r0.center_pts) t2) then
                G.trimToPt (if r0.dst_i = iid then r0.center_pts
                  else G.reversed r0.center_pts) t1
              else
                G.trimToPt (if r0.dst_i = iid then r0.center_pts
                  else G.reversed r0.center_pts) t2),
              LANE_THICKNESS * (r0.children_backwards : ℚ),
              LANE_THICKNESS * (r0.children_forwards : ℚ))
          else
            ((if G.plLength (G.trimToPt (if r0.dst_i = iid then
                  r0.center_pts else G.reversed r0.center_pts) t1)
                ≤ G.plLength (G.trimToPt (if r0.dst_i = iid then r0.center_pts
                  else G.reversed r0.center_pts) t2) then
                G.trimToPt (if r0.dst_i = iid then r0.center_pts
                  else G.reversed r0.center_pts) t1
              else
                G.trimToPt (if r0.dst_i = iid then r0.center_pts
                  else G.reversed r0.center_pts) t2),
              LANE_THICKNESS * (r0.children_forwards : ℚ),
              LANE_THICKNESS * (r0.children_backwards : ℚ))) : PL × ℚ × ℚ).2.1
        with _ | npl
      · rw [hs1] at h; cases h
      rw [hs1] at h
      dsimp only at h
      rcases hs2 : G.shift (G.reversed (if G.plLength (G.trimToPt
              (if r0.dst_i = iid then r0.center_pts
                else G.reversed r0.center_pts) t1)
            ≤ G.plLength (G.trimToPt (if r0.dst_i = iid then r0.center_pts
              else G.reversed r0.center_pts) t2) then
            G.trimToPt (if r0.dst_i = iid then r0.center_pts
              else G.reversed r0.center_pts) t1
          else
            G.trimToPt (if r0.dst_i = iid then r0.center_pts
              else G.reversed r0.center_pts) t2))
          ((if r0.src_i = iid then
            (G.reversed (if G.plLength (G.trimToPt (if r0.dst_i = iid then
                  r0.center_pts else G.reversed r0.center_pts) t1)
                ≤ G.plLength (G.trimToPt (if r0.dst_i = iid then r0.center_pts
                  else G.reversed r0.center_pts) t2) then
                G.trimToPt (if r0.dst_i = iid then r0.center_pts
                  else G.reversed r0.center_pts) t1
              else
                G.trimToPt (if r0.dst_i = iid then r0.center_pts
                  else G.reversed r0.center_pts) t2),
              LANE_THICKNESS * (r0.children_backwards : ℚ),
              LANE_THICKNESS * (r0.children_forwards : ℚ))
          else
            ((if G.plLength (G.trimToPt (if r0.dst_i = iid then
                  r0.center_pts else G.reversed r0.center_pts) t1)
                ≤ G.plLength (G.trimToPt (if r0.dst_i = iid then r0.center_pts
                  else G.reversed r0.center_pts) t2) then
                G.trimToPt (if r0.dst_i = iid then r0.center_pts
                  else G.reversed r0.center_pts) t1
              else
                G.trimToPt (if r0.dst_i = iid then r0.center_pts
                  else G.reversed r0.center_pts) t2),
              LANE_THICKNESS * (r0.children_forwards : ℚ),
              LANE_THICKNESS * (r0.children_backwards : ℚ))) : PL × ℚ × ℚ).2.2
        with _ | vpl
      · rw [hs2] at h; cases h
      rw [hs2] at h
      dsimp only at h
      rw [Except.ok.injEq, Option.some.injEq, Prod.mk.injEq] at h
      obtain ⟨hpts, hroads⟩ := h
      subst hpts
      subst hroads
      constructor
      · exact roadsFrame_set hF hmem hr rfl rfl rfl rfl
          (ncw_fst_le hG r0 iid _ hscle _ _ _ _)
      · simp

theorem mnpAux_frame {G : GeomOps Pt PL Ang Ln} (hG : GeomLaws G)
    {ids : List ℕ} {iid : ℕ} {lines : List (ℕ × Ang × PL × PL)}
    {roads0 : List (Road PL)}
    (hids : ∀ e ∈ lines, e.1 ∈ ids) :
    ∀ (idxs : List ℕ) (acc : List Pt × List (Road PL))
      (opt : Option (List Pt)) (roads1 : List (Road PL)),
      roadsFrame G ids roads0 acc.2 →
      mnpAux G iid lines idxs acc = .ok (opt, roads1) →
      roadsFrame G ids roads0 roads1 := by
  intro idxs
  induction idxs with
  | nil =>
    intro acc opt roads1 hF h
    rw [mnpAux, Except.ok.injEq, Prod.mk.injEq] at h
    rw [← h.2]
    exact hF
  | cons k rest ih =>
    intro acc opt roads1 hF h
    rw [mnpAux] at h
    rcases hpr : processRoad G iid lines acc.2 (k : ℤ) with e | o
    · rw [hpr] at h; cases h
    · rw [hpr] at h
      rcases o with _ | ⟨p, roadsx⟩
      · dsimp only at h
        rw [Except.ok.injEq, Prod.mk.injEq] at h
        rw [← h.2]
        exact hF
      · dsimp only at h
        exact ih (acc.1 ++ p, roadsx) opt roads1
          (processRoad_frame hG hids hF hpr).1 h

/-- C10: a call that completes mutates only the centerlines of roads
incident to the intersection — the road count is unchanged, non-incident
roads are untouched, every road keeps its endpoints and lane children, and
every centerline's length never grows. -/
theorem C10_frame {Pt PL Ang Ln : Type} (G : GeomOps Pt PL Ang Ln)
    (hG : GeomLaws G) (i : Intersection) (roads : List (Road PL))
    (out : List Pt × List (Road PL) × List Diag)
    (h : initial_intersection_polygon G i roads = .ok out) :
    roadsFrame G i.roads roads out.2.1 := by
  rw [initial_intersection_polygon] at h
  rcases hmap : mapExcept (buildLine G i roads) i.roads with e | lines0
  · rw [hmap] at h; cases h
  rw [hmap] at h
  dsimp only at h
  have hids : ∀ e2 ∈ sort_by_key (entryKey G) lines0, e2.1 ∈ i.roads := by
    intro e2 he2
    have he0 : e2 ∈ lines0 := (sort_by_key_perm (entryKey G) lines0).subset he2
    rcases mapExcept_mem_ok hmap he0 with ⟨x, hxl, hfx⟩
    rw [buildLine_ok_id hfx]
    exact hxl
  rcases hlines : sort_by_key (entryKey G) lines0 with _ | ⟨e1, rest1⟩
  · rw [hlines] at h hids
    dsimp only at h
    rcases hmnp : make_new_polygon G roads i.id [] with e | ⟨opt, roads1⟩
    · rw [hmnp] at h; cases h
    · rw [hmnp] at h
      rw [make_new_polygon] at hmnp
      have hF1 : roadsFrame G i.roads roads roads1 :=
        mnpAux_frame hG hids _ ([], roads) opt roads1
          (roadsFrame_refl G i.roads roads) hmnp
      rcases opt with _ | pts
      · rw [closeRing_roads h]
        exact hF1
      · rw [closeRing_roads h]
        exact hF1
  · rcases rest1 with _ | ⟨e2, rest2⟩
    · rw [hlines] at h hids
      have hmem1 : e1.1 ∈ i.roads := hids e1 (List.mem_cons_self _ _)
      dsimp only at h
      rcases hq1 : G.safeDistAlong (G.reversed e1.2.2.1)
          (DEGENERATE_INTERSECTION_HALF_LENGTH * 2) with _ | q1
      · rw [hq1] at h
        dsimp only [Option.map] at h
        rw [closeRing_roads h]
        exact roadsFrame_refl G i.roads roads
      · rw [hq1] at h
        rcases hq2 : G.safeDistAlong (G.reversed e1.2.2.2)
            (DEGENERATE_INTERSECTION_HALF_LENGTH * 2) with _ | q2
        · rw [hq2] at h
          dsimp only [Option.map] at h
          rw [closeRing_roads h]
          exact roadsFrame_refl G i.roads roads
        · rw [hq2] at h
          dsimp only [Option.map] at h
          rw [closeRing_roads h]
          exact trimDeadEnd_frame hG i.id e1.1
            (roadsFrame_refl G i.roads roads) hmem1
    · rcases rest2 with _ | ⟨e3, rest3⟩
      · rw [hlines] at h hids
        have hmem1 : e1.1 ∈ i.roads := hids e1 (List.mem_cons_self _ _)
        have hmem2 : e2.1 ∈ i.roads :=
          hids e2 (List.mem_cons_of_mem _ (List.mem_cons_self _ _))
        dsimp only at h
        by_cases hcond : DEGENERATE_INTERSECTION_HALF_LENGTH ≤ G.plLength e1.2.2.1
            ∧ DEGENERATE_INTERSECTION_HALF_LENGTH ≤ G.plLength e1.2.2.2
            ∧ DEGENERATE_INTERSECTION_HALF_LENGTH ≤ G.plLength e2.2.2.1
            ∧ DEGENERATE_INTERSECTION_HALF_LENGTH ≤ G.plLength e2.2.2.2
        · rw [if_pos hcond] at h
          rw [closeRing_roads h]
          exact trimDegenerate_frame hG i.id e2.1
            (trimDegenerate_frame hG i.id e1.1
              (roadsFrame_refl G i.roads roads) hmem1) hmem2
        · rw [if_neg hcond] at h
          rw [closeRing_roads h]
          exact roadsFrame_refl G i.roads roads
      · rw [hlines] at h hids
        dsimp only at h
        rcases hmnp : make_new_polygon G roads i.id (e1 :: e2 :: e3 :: rest3)
            with e | ⟨opt, roads1⟩
        · rw [hmnp] at h; cases h
        · rw [hmnp] at h
          rw [make_new_polygon] at hmnp
          have hF1 : roadsFrame G i.roads roads roads1 :=
            mnpAux_frame hG hids _ ([], roads) opt roads1
              (roadsFrame_refl G i.roads roads) hmnp
          rcases opt with _ | pts
          · rw [closeRing_roads h]
            exact hF1
          · rw [closeRing_roads h]
            exact hF1

/-- C10 (witness): the frame theorem applied to a concrete dead-end trim —
the single incident road keeps its endpoints and children and only its
centerline shortens, from length 20 to length 10. -/
theorem C10_frame_witness :
    roadsFrame (mkG defaultParams) iC10.roads rC10
      [⟨9, 7, ((10 : ℚ), (0 : ℕ)), 1, 2⟩] :=
  C10_frame (mkG defaultParams) (mkG_laws defaultParams) iC10 rC10
    ([111, 112, 12, 11, 111], [⟨9, 7, (10, 0), 1, 2⟩], [])
    (by with_unfolding_all rfl)

end ABStreet
